import Mathlib

/-!
# Verification of the `velox` route-matcher specification

Shallow embedding of `src/rust/route-matcher` (lib.rs, heatmap.rs,
sections.rs, geo_utils.rs) over exact rationals, together with theorems
settling the frozen claims C1-C10.

Modelling conventions:

* `f64` arithmetic is modelled by `ℚ` (exact real-valued semantics of the
  arithmetic expressions in the source; no rounding is modelled).
* The one transcendental primitive, `haversine_distance` (geo crate,
  `Haversine::distance`), is threaded through every definition as an
  explicit parameter `hav : GpsPoint → GpsPoint → ℚ`.  Theorems assume of
  it only properties the real haversine enjoys (symmetry, nonnegativity,
  `hav p p = 0`); concrete instances use a computable surrogate and are
  constructed so that every comparison made by the code has the same
  outcome under the real haversine (all construction points lie on one
  meridian, where the haversine is exactly linear in the latitude
  difference, and every threshold comparison has a wide margin).
* Likewise `f64::sqrt` (used only in the consensus weighting of
  sections.rs) is a parameter `fsqrt : ℚ → ℚ`, and `cos` (used only in
  `meters_to_degrees` and the heatmap grid) is a parameter
  `fcos : ℚ → ℚ` standing for `fun x => (x.to_radians()).cos()`.
* Rust `HashMap`/`HashSet` are modelled by association lists with
  last-insert-wins lookup where the source relies on overwrite semantics;
  iteration order of hash containers is unspecified in Rust, and the
  claims below are all insensitive to it.
* `rstar` R-trees are pure spatial indexes: `locate_in_envelope_intersecting`
  is modelled as a list filter by envelope intersection and
  `nearest_neighbor` as a first-minimum scan.  The only behavioural
  freedom of the real structure is tie-breaking between equally-near
  points; all concrete inputs below are tie-free where the choice matters.
* `f64::INFINITY` (only produced by `average_min_distance` on empty input)
  is modelled by the constant `inftyQ`, which dominates every finite
  quantity the code compares it against.
-/

namespace Velox

/-- A GPS coordinate (lib.rs `GpsPoint`). -/
structure GpsPoint where
  latitude : ℚ
  longitude : ℚ
deriving DecidableEq, Repr

/-- Bounding box for a route (lib.rs `Bounds`). -/
structure Bounds where
  min_lat : ℚ
  max_lat : ℚ
  min_lng : ℚ
  max_lng : ℚ
deriving DecidableEq, Repr

/-- A simplified route signature (lib.rs `RouteSignature`). -/
structure RouteSignature where
  activity_id : String
  points : List GpsPoint
  total_distance : ℚ
  start_point : GpsPoint
  end_point : GpsPoint
  bounds : Bounds
  center : GpsPoint
deriving DecidableEq, Repr

/-- Result of comparing two routes (lib.rs `MatchResult`). -/
structure MatchResult where
  activity_id_1 : String
  activity_id_2 : String
  match_percentage : ℚ
  direction : String
  amd : ℚ
deriving DecidableEq, Repr

/-- Configuration for route matching (lib.rs `MatchConfig`). -/
structure MatchConfig where
  perfect_threshold : ℚ
  zero_threshold : ℚ
  min_match_percentage : ℚ
  min_route_distance : ℚ
  max_distance_diff_ratio : ℚ
  endpoint_threshold : ℚ
  resample_count : Nat
  simplification_tolerance : ℚ
  max_simplified_points : Nat
deriving DecidableEq, Repr

/-- lib.rs `MatchConfig::default`. -/
def MatchConfig.default : MatchConfig where
  perfect_threshold := 30
  zero_threshold := 250
  min_match_percentage := 65
  min_route_distance := 500
  max_distance_diff_ratio := 1/5
  endpoint_threshold := 200
  resample_count := 50
  simplification_tolerance := 1/10000
  max_simplified_points := 100

/-- A group of similar routes (lib.rs `RouteGroup`). -/
structure RouteGroup where
  group_id : String
  activity_ids : List String
deriving DecidableEq, Repr

/-- Bounding box used for spatial indexing (lib.rs `RouteBounds`). -/
structure RouteBounds where
  activity_id : String
  min_lat : ℚ
  max_lat : ℚ
  min_lng : ℚ
  max_lng : ℚ
  distance : ℚ
deriving DecidableEq, Repr

/-- Stand-in for `f64::INFINITY`: larger than every finite quantity the
code ever compares it against. -/
def inftyQ : ℚ := 10 ^ 30

/-- lib.rs `Bounds::from_points`. -/
def Bounds.from_points (points : List GpsPoint) : Option Bounds :=
  match points with
  | [] => none
  | p :: ps =>
    some (ps.foldl
      (fun b q =>
        { min_lat := min b.min_lat q.latitude
          max_lat := max b.max_lat q.latitude
          min_lng := min b.min_lng q.longitude
          max_lng := max b.max_lng q.longitude })
      { min_lat := p.latitude, max_lat := p.latitude
        min_lng := p.longitude, max_lng := p.longitude })

/-- lib.rs `Bounds::center`. -/
def Bounds.center (b : Bounds) : GpsPoint :=
  ⟨(b.min_lat + b.max_lat) / 2, (b.min_lng + b.max_lng) / 2⟩

/-- lib.rs `calculate_route_distance`: sum of consecutive haversine
distances. -/
def calculateRouteDistance (hav : GpsPoint → GpsPoint → ℚ) :
    List GpsPoint → ℚ
  | [] => 0
  | [_] => 0
  | p :: q :: rest => hav p q + calculateRouteDistance hav (q :: rest)

/-- lib.rs `average_min_distance`: for each point of `route1` the minimum
haversine distance to `route2`, averaged; `f64::INFINITY` on empty input. -/
def averageMinDistance (hav : GpsPoint → GpsPoint → ℚ)
    (route1 route2 : List GpsPoint) : ℚ :=
  if route1.isEmpty ∨ route2.isEmpty then inftyQ
  else
    (route1.map (fun p1 => (route2.map (fun p2 => hav p1 p2)).foldl min inftyQ)).sum
      / (route1.length : ℚ)

/-- lib.rs `amd_to_percentage`. -/
def amdToPercentage (amd perfectThreshold zeroThreshold : ℚ) : ℚ :=
  if amd ≤ perfectThreshold then 100
  else if amd ≥ zeroThreshold then 0
  else 100 * (1 - (amd - perfectThreshold) / (zeroThreshold - perfectThreshold))

/-- The linearly interpolated point emitted by lib.rs `resample_route`
(`new_lat`/`new_lng`). -/
def lerpPoint (prev curr : GpsPoint) (ratio : ℚ) : GpsPoint :=
  ⟨prev.latitude + ratio * (curr.latitude - prev.latitude),
   prev.longitude + ratio * (curr.longitude - prev.longitude)⟩

/-- Inner `while` loop of lib.rs `resample_route`, which pushes
interpolated points while the accumulated length crosses thresholds.  The
`fuel` argument only bounds the recursion; each iteration lengthens
`resampled`, which the loop guard caps below `targetCount - 1`, so any
`fuel ≥ targetCount` is never exhausted. -/
def resampleWhile (targetCount : Nat) (stepDist : ℚ) (prev curr : GpsPoint)
    (segDist : ℚ) (accumulated : ℚ) :
    Nat → ℚ → List GpsPoint → ℚ × List GpsPoint
  | 0, nextThreshold, resampled => (nextThreshold, resampled)
  | fuel + 1, nextThreshold, resampled =>
    if accumulated + segDist ≥ nextThreshold ∧ resampled.length < targetCount - 1 then
      resampleWhile targetCount stepDist prev curr segDist accumulated
        fuel (nextThreshold + stepDist)
        (resampled ++ [lerpPoint prev curr ((nextThreshold - accumulated) / segDist)])
    else (nextThreshold, resampled)

/-- Main walk of lib.rs `resample_route` over the remaining points,
threading the mutable state `(accumulated, next_threshold, resampled)`. -/
def resampleWalk (hav : GpsPoint → GpsPoint → ℚ) (targetCount : Nat)
    (stepDist : ℚ) :
    List GpsPoint → GpsPoint → ℚ → ℚ → List GpsPoint →
      ℚ × ℚ × List GpsPoint
  | [], _, accumulated, nextThreshold, resampled =>
    (accumulated, nextThreshold, resampled)
  | curr :: rest, prev, accumulated, nextThreshold, resampled =>
    let segDist := hav prev curr
    let (next2, res2) := resampleWhile targetCount stepDist prev curr segDist
      accumulated targetCount nextThreshold resampled
    resampleWalk hav targetCount stepDist rest curr (accumulated + segDist)
      next2 res2

/-- lib.rs `resample_route`.  Note: in the `total_dist == 0.0` branch the
Rust computes `0.0 / 0.0 = NaN` never (the branch returns early); and in
the main branch the final `(target_count - 1)` subtraction is on `usize`,
here `Nat` (saturating at zero, which for `target_count ∈ {0, 1}` also
makes the loop guard `len < target_count - 1` false, as in Rust for
`target_count = 1`). -/
def resampleRoute (hav : GpsPoint → GpsPoint → ℚ)
    (points : List GpsPoint) (targetCount : Nat) : List GpsPoint :=
  if points.length < 2 then points
  else if points.length = targetCount then points
  else
    let totalDist := calculateRouteDistance hav points
    if totalDist = 0 then points.take (min targetCount points.length)
    else
      let stepDist := totalDist / ((targetCount - 1 : Nat) : ℚ)
      match points with
      | [] => []
      | p0 :: rest =>
        let (_, _, res) :=
          resampleWalk hav targetCount stepDist rest p0 0 stepDist [p0]
        if res.length < targetCount then
          res ++ [points.getLastD p0]
        else res

/-- lib.rs `determine_direction_by_endpoints`. -/
def determineDirectionByEndpoints (hav : GpsPoint → GpsPoint → ℚ)
    (sig1 sig2 : RouteSignature) (loopThreshold : ℚ) : String :=
  let start1 := sig1.start_point
  let end1 := sig1.end_point
  let start2 := sig2.start_point
  let end2 := sig2.end_point
  let sig1IsLoop := hav start1 end1 < loopThreshold
  let sig2IsLoop := hav start2 end2 < loopThreshold
  if sig1IsLoop ∧ sig2IsLoop then "same"
  else
    let sameScore := hav start2 start1 + hav end2 end1
    let reverseScore := hav start2 end1 + hav end2 start1
    if reverseScore < sameScore - 100 then "reverse" else "same"

/-- The length-ratio prefilter at the top of lib.rs `compare_routes`.
In `f64`, if both distances are zero the computed ratio is `0.0/0.0 = NaN`
and `NaN < 0.5` is `false`, so the filter passes; that case is modelled
explicitly (ℚ division would give `0`). -/
def distanceRatioRejects (d1 d2 : ℚ) : Bool :=
  if d1 = 0 ∧ d2 = 0 then false
  else
    let ratio := if d1 > d2 then d2 / d1 else d1 / d2
    ratio < 1/2

/-- lib.rs `compare_routes`. -/
def compareRoutes (hav : GpsPoint → GpsPoint → ℚ)
    (sig1 sig2 : RouteSignature) (config : MatchConfig) :
    Option MatchResult :=
  if distanceRatioRejects sig1.total_distance sig2.total_distance then none
  else
    let resampled1 := resampleRoute hav sig1.points config.resample_count
    let resampled2 := resampleRoute hav sig2.points config.resample_count
    let amd1to2 := averageMinDistance hav resampled1 resampled2
    let amd2to1 := averageMinDistance hav resampled2 resampled1
    let avgAmd := (amd1to2 + amd2to1) / 2
    let matchPercentage :=
      amdToPercentage avgAmd config.perfect_threshold config.zero_threshold
    if matchPercentage < config.min_match_percentage then none
    else
      let direction :=
        determineDirectionByEndpoints hav sig1 sig2 config.endpoint_threshold
      let directionStr :=
        if matchPercentage ≥ 70 then direction else "partial"
      some
        { activity_id_1 := sig1.activity_id
          activity_id_2 := sig2.activity_id
          match_percentage := matchPercentage
          direction := directionStr
          amd := avgAmd }

/-- lib.rs `check_middle_points_match`: compare points at the 25%, 50%
and 75% positions of each route.  Indexing is by `(len as f64 * pos) as
usize`, i.e. a floor, always in range for `pos ≤ 0.75`; `getD` supplies a
never-used default. -/
def checkMiddlePointsMatch (hav : GpsPoint → GpsPoint → ℚ)
    (points1 points2 : List GpsPoint) (threshold : ℚ) : Bool :=
  if points1.length < 5 ∨ points2.length < 5 then true
  else
    [((1 : ℚ)/4), 1/2, 3/4].all fun pos =>
      let idx1 := (Int.floor ((points1.length : ℚ) * pos)).toNat
      let idx2 := (Int.floor ((points2.length : ℚ) * pos)).toNat
      let p1 := points1.getD idx1 ⟨0, 0⟩
      let p2 := points2.getD idx2 ⟨0, 0⟩
      ¬ hav p1 p2 > threshold

/-- lib.rs `should_group_routes`. -/
def shouldGroupRoutes (hav : GpsPoint → GpsPoint → ℚ)
    (sig1 sig2 : RouteSignature) (matchResult : MatchResult)
    (config : MatchConfig) : Bool :=
  if sig1.total_distance < config.min_route_distance ∨
     sig2.total_distance < config.min_route_distance then false
  else if matchResult.match_percentage < config.min_match_percentage then false
  else
    let distanceDiff := |sig1.total_distance - sig2.total_distance|
    let maxDistance := max sig1.total_distance sig2.total_distance
    if maxDistance > 0 ∧ distanceDiff / maxDistance > config.max_distance_diff_ratio
      then false
  else
    let start1 := sig1.start_point
    let end1 := sig1.end_point
    let start2 := sig2.start_point
    let end2 := sig2.end_point
    let sig1IsLoop := hav start1 end1 < config.endpoint_threshold
    let sig2IsLoop := hav start2 end2 < config.endpoint_threshold
    if sig1IsLoop ∧ sig2IsLoop then
      if hav start1 start2 > config.endpoint_threshold then false
      else checkMiddlePointsMatch hav sig1.points sig2.points
        (config.endpoint_threshold * 2)
    else
      let sameDirectionOk := hav start1 start2 < config.endpoint_threshold ∧
        hav end1 end2 < config.endpoint_threshold
      let reverseDirectionOk := hav start1 end2 < config.endpoint_threshold ∧
        hav end1 start2 < config.endpoint_threshold
      if ¬ sameDirectionOk ∧ ¬ reverseDirectionOk then false
      else
        let points2ForMiddle :=
          if reverseDirectionOk ∧ ¬ sameDirectionOk then sig2.points.reverse
          else sig2.points
        checkMiddlePointsMatch hav sig1.points points2ForMiddle
          (config.endpoint_threshold * 2)

/-- lib.rs `calculate_bounds` (tuple form; `(MAX, MIN, MAX, MIN)` for the
empty list, as in Rust). -/
def calculateBounds (points : List GpsPoint) : ℚ × ℚ × ℚ × ℚ :=
  points.foldl
    (fun (b : ℚ × ℚ × ℚ × ℚ) p =>
      (min b.1 p.latitude, max b.2.1 p.latitude,
       min b.2.2.1 p.longitude, max b.2.2.2 p.longitude))
    (inftyQ, -inftyQ, inftyQ, -inftyQ)

/-- lib.rs `distance_ratio_ok`. -/
def distanceRatioOk (d1 d2 : ℚ) : Bool :=
  if d1 ≤ 0 ∨ d2 ≤ 0 then false
  else
    let ratio := if d1 > d2 then d2 / d1 else d1 / d2
    ratio ≥ 1/2

/-- lib.rs `RouteSignature::route_bounds`. -/
def RouteSignature.routeBounds (s : RouteSignature) : RouteBounds :=
  { activity_id := s.activity_id
    min_lat := s.bounds.min_lat
    max_lat := s.bounds.max_lat
    min_lng := s.bounds.min_lng
    max_lng := s.bounds.max_lng
    distance := s.total_distance }

/-- Semantic model of the rstar query
`locate_in_envelope_intersecting(AABB)`: an element is returned iff its
envelope `[min_lng, min_lat] × [max_lng, max_lat]` intersects the search
envelope (closed intervals). -/
def envelopeIntersects (b : RouteBounds)
    (loLng loLat hiLng hiLat : ℚ) : Bool :=
  b.min_lng ≤ hiLng ∧ loLng ≤ b.max_lng ∧ b.min_lat ≤ hiLat ∧ loLat ≤ b.max_lat

/-- Association-list insert with overwrite, modelling `HashMap::insert`. -/
def alInsert {α : Type} (m : List (String × α)) (k : String) (v : α) :
    List (String × α) :=
  if m.any (fun kv => kv.1 = k) then
    m.map (fun kv => if kv.1 = k then (k, v) else kv)
  else m ++ [(k, v)]

/-- lib.rs `find` (union-find lookup with path compression).  The Rust
recursion terminates because the grouping code only ever builds acyclic
parent maps; the embedding makes this explicit with a `fuel` bound, and
every call site passes fuel exceeding the longest possible parent chain. -/
def ufFind : Nat → List (String × String) → String →
    String × List (String × String)
  | 0, parent, id => (id, parent)
  | fuel + 1, parent, id =>
    let current := (parent.lookup id).getD id
    if current = id then (id, parent)
    else
      let (root, parent2) := ufFind fuel parent current
      (root, alInsert parent2 id root)

/-- lib.rs `union`. -/
def ufUnion (fuel : Nat) (parent : List (String × String))
    (id1 id2 : String) : List (String × String) :=
  let (root1, parent1) := ufFind fuel parent id1
  let (root2, parent2) := ufFind fuel parent1 id2
  if root1 ≠ root2 then alInsert parent2 root2 root1 else parent2

/-- `HashMap` collected from an iterator keyed by activity id: a later
entry with the same key wins (lib.rs `sig_map`). -/
def sigLookup (sigs : List RouteSignature) (id : String) :
    Option RouteSignature :=
  sigs.foldl (fun acc s => if s.activity_id = id then some s else acc) none

/-- Append `id` to the bucket of `root`, creating the bucket if absent
(models `groups.entry(root).or_default().push(id)`; `HashMap` keys are
unique, so updating the first match is exact). -/
def bucketAdd : List (String × List String) → String → String →
    List (String × List String)
  | [], root, id => [(root, [id])]
  | kv :: rest, root, id =>
    if kv.1 = root then (kv.1, kv.2 ++ [id]) :: rest
    else kv :: bucketAdd rest root id

/-- The group-building loop shared by all three groupers: for each
signature, find its root (with path compression) and append its id to
that root's bucket. -/
def buildBuckets (fuel : Nat) :
    List RouteSignature → List (String × String) →
      List (String × List String) → List (String × List String)
  | [], _, buckets => buckets
  | sig :: rest, parent, buckets =>
    let (root, parent2) := ufFind fuel parent sig.activity_id
    buildBuckets fuel rest parent2 (bucketAdd buckets root sig.activity_id)

/-- Buckets to `RouteGroup`s (`groups.into_iter().map(..)`). -/
def bucketsToGroups (buckets : List (String × List String)) :
    List RouteGroup :=
  buckets.map fun kv => { group_id := kv.1, activity_ids := kv.2 }

/-- Candidate scan of lib.rs `group_signatures` for one `sig1`: the R-tree
query is modelled as a filter over all route bounds. -/
def groupScanOne (hav : GpsPoint → GpsPoint → ℚ) (fuel : Nat)
    (signatures : List RouteSignature) (allBounds : List RouteBounds)
    (config : MatchConfig) (parent : List (String × String))
    (sig1 : RouteSignature) : List (String × String) :=
  let tolerance : ℚ := 1/100
  let b4 := calculateBounds sig1.points
  let minLat := b4.1
  let maxLat := b4.2.1
  let minLng := b4.2.2.1
  let maxLng := b4.2.2.2
  (allBounds.filter fun b =>
      envelopeIntersects b (minLng - tolerance) (minLat - tolerance)
        (maxLng + tolerance) (maxLat + tolerance)).foldl
    (fun parent b =>
      if b.activity_id = sig1.activity_id then parent
      else if sig1.activity_id ≥ b.activity_id then parent
      else if ¬ distanceRatioOk sig1.total_distance b.distance then parent
      else
        match sigLookup signatures b.activity_id with
        | none => parent
        | some sig2 =>
          match compareRoutes hav sig1 sig2 config with
          | none => parent
          | some matchResult =>
            if shouldGroupRoutes hav sig1 sig2 matchResult config then
              ufUnion fuel parent sig1.activity_id b.activity_id
            else parent)
    parent

/-- lib.rs `group_signatures`. -/
def groupSignatures (hav : GpsPoint → GpsPoint → ℚ)
    (signatures : List RouteSignature) (config : MatchConfig) :
    List RouteGroup :=
  if signatures.isEmpty then []
  else
    let allBounds := signatures.map RouteSignature.routeBounds
    let fuel := signatures.length + 1
    let parent0 := signatures.map fun s => (s.activity_id, s.activity_id)
    let parent1 := signatures.foldl
      (groupScanOne hav fuel signatures allBounds config) parent0
    bucketsToGroups (buildBuckets fuel signatures parent1 [])

/-- Match collection of lib.rs `group_signatures_parallel` for one `sig1`
(rayon's `flat_map` + `collect` preserves index order, so the parallel
variant is deterministic and equals this sequential model). -/
def parallelMatchesOne (hav : GpsPoint → GpsPoint → ℚ)
    (signatures : List RouteSignature) (allBounds : List RouteBounds)
    (config : MatchConfig) (sig1 : RouteSignature) :
    List (String × String) :=
  let tolerance : ℚ := 1/100
  let b4 := calculateBounds sig1.points
  let minLat := b4.1
  let maxLat := b4.2.1
  let minLng := b4.2.2.1
  let maxLng := b4.2.2.2
  ((allBounds.filter fun b =>
      envelopeIntersects b (minLng - tolerance) (minLat - tolerance)
        (maxLng + tolerance) (maxLat + tolerance)).filter fun b =>
      b.activity_id ≠ sig1.activity_id ∧
      sig1.activity_id < b.activity_id ∧
      distanceRatioOk sig1.total_distance b.distance).filterMap fun b =>
    match sigLookup signatures b.activity_id with
    | none => none
    | some sig2 =>
      match compareRoutes hav sig1 sig2 config with
      | none => none
      | some matchResult =>
        if shouldGroupRoutes hav sig1 sig2 matchResult config then
          some (sig1.activity_id, b.activity_id)
        else none

/-- lib.rs `group_signatures_parallel`. -/
def groupSignaturesParallel (hav : GpsPoint → GpsPoint → ℚ)
    (signatures : List RouteSignature) (config : MatchConfig) :
    List RouteGroup :=
  if signatures.isEmpty then []
  else
    let allBounds := signatures.map RouteSignature.routeBounds
    let matchList := signatures.flatMap
      (parallelMatchesOne hav signatures allBounds config)
    let fuel := signatures.length + 1
    let parent0 := signatures.map fun s => (s.activity_id, s.activity_id)
    let parent1 := matchList.foldl
      (fun parent m => ufUnion fuel parent m.1 m.2) parent0
    bucketsToGroups (buildBuckets fuel signatures parent1 [])

/-- Match collection of lib.rs `group_incremental` for one new signature. -/
def incrementalMatchesOne (hav : GpsPoint → GpsPoint → ℚ)
    (allSignatures : List RouteSignature) (allBounds : List RouteBounds)
    (newIds : List String) (config : MatchConfig)
    (newSig : RouteSignature) : List (String × String) :=
  let tolerance : ℚ := 1/100
  ((allBounds.filter fun b =>
      envelopeIntersects b (newSig.bounds.min_lng - tolerance)
        (newSig.bounds.min_lat - tolerance)
        (newSig.bounds.max_lng + tolerance)
        (newSig.bounds.max_lat + tolerance)).filter fun b =>
      b.activity_id ≠ newSig.activity_id ∧
      distanceRatioOk newSig.total_distance b.distance).filterMap fun b =>
    match sigLookup allSignatures b.activity_id with
    | none => none
    | some otherSig =>
      let otherIsNew := newIds.contains b.activity_id
      if otherIsNew ∧ newSig.activity_id ≥ b.activity_id then none
      else
        match compareRoutes hav newSig otherSig config with
        | none => none
        | some matchResult =>
          if shouldGroupRoutes hav newSig otherSig matchResult config then
            some (newSig.activity_id, b.activity_id)
          else none

/-- lib.rs `group_incremental`. -/
def groupIncremental (hav : GpsPoint → GpsPoint → ℚ)
    (newSignatures : List RouteSignature)
    (existingGroups : List RouteGroup)
    (existingSignatures : List RouteSignature)
    (config : MatchConfig) : List RouteGroup :=
  if newSignatures.isEmpty then existingGroups
  else if existingGroups.isEmpty then
    groupSignaturesParallel hav newSignatures config
  else
    let allSignatures := existingSignatures ++ newSignatures
    let allBounds := allSignatures.map RouteSignature.routeBounds
    let newIds := newSignatures.map (fun s => s.activity_id)
    let parentSeed := existingGroups.foldl
      (fun parent g =>
        match g.activity_ids with
        | [] => parent
        | representative :: _ =>
          g.activity_ids.foldl
            (fun parent id => alInsert parent id representative) parent)
      []
    let parent0 := newSignatures.foldl
      (fun parent s => alInsert parent s.activity_id s.activity_id) parentSeed
    let matchList := newSignatures.flatMap
      (incrementalMatchesOne hav allSignatures allBounds newIds config)
    let fuel := allSignatures.length + existingGroups.length + 1
    let parent1 := matchList.foldl
      (fun parent m => ufUnion fuel parent m.1 m.2) parent0
    bucketsToGroups (buildBuckets fuel allSignatures parent1 [])

/-! ## geo_utils.rs -/

/-- geo_utils.rs `polyline_length`. -/
def polylineLength (hav : GpsPoint → GpsPoint → ℚ)
    (points : List GpsPoint) : ℚ :=
  if points.length < 2 then 0
  else calculateRouteDistance hav points

/-- geo_utils.rs `meters_to_degrees`; `fcos` models
`fun x => (x.to_radians()).cos()`. -/
def metersToDegrees (fcos : ℚ → ℚ) (meters latitude : ℚ) : ℚ :=
  let metersPerDegree := 111320 * max (fcos latitude) (1/10)
  meters / metersPerDegree

/-- geo_utils.rs `compute_bounds` (empty input gives the MAX/MIN sentinel
bounds, which fail every overlap test). -/
def computeBounds (points : List GpsPoint) : Bounds :=
  points.foldl
    (fun b p =>
      { min_lat := min b.min_lat p.latitude
        max_lat := max b.max_lat p.latitude
        min_lng := min b.min_lng p.longitude
        max_lng := max b.max_lng p.longitude })
    { min_lat := inftyQ, max_lat := -inftyQ
      min_lng := inftyQ, max_lng := -inftyQ }

/-- geo_utils.rs `bounds_overlap`. -/
def boundsOverlap (fcos : ℚ → ℚ) (a b : Bounds)
    (bufferMeters referenceLat : ℚ) : Bool :=
  let bufferDeg := metersToDegrees fcos bufferMeters referenceLat
  ¬ (a.max_lat + bufferDeg < b.min_lat ∨
     b.max_lat + bufferDeg < a.min_lat ∨
     a.max_lng + bufferDeg < b.min_lng ∨
     b.max_lng + bufferDeg < a.min_lng)

/-- geo_utils.rs `compute_center`. -/
def computeCenter (points : List GpsPoint) : GpsPoint :=
  if points.isEmpty then ⟨0, 0⟩
  else
    ⟨(points.map (fun p => p.latitude)).sum / (points.length : ℚ),
     (points.map (fun p => p.longitude)).sum / (points.length : ℚ)⟩

/-! ## heatmap.rs -/

/-- heatmap.rs `HeatmapConfig`. -/
structure HeatmapConfig where
  cell_size_meters : ℚ
  bounds : Option Bounds
deriving DecidableEq, Repr

/-- heatmap.rs `RouteRef`. -/
structure RouteRef where
  route_id : String
  activity_count : Nat
  name : Option String
deriving DecidableEq, Repr

/-- heatmap.rs `HeatmapCell` (density is the `f32` `count / max_density`,
modelled exactly in ℚ). -/
structure HeatmapCell where
  row : Int
  col : Int
  center_lat : ℚ
  center_lng : ℚ
  density : ℚ
  visit_count : Nat
  route_refs : List RouteRef
  unique_route_count : Nat
  activity_ids : List String
  first_visit : Option Int
  last_visit : Option Int
  is_common_path : Bool
deriving DecidableEq, Repr

/-- heatmap.rs `HeatmapBounds`. -/
structure HeatmapBounds where
  min_lat : ℚ
  max_lat : ℚ
  min_lng : ℚ
  max_lng : ℚ
deriving DecidableEq, Repr

/-- heatmap.rs `HeatmapResult`. -/
structure HeatmapResult where
  cells : List HeatmapCell
  bounds : HeatmapBounds
  cell_size_meters : ℚ
  grid_rows : Nat
  grid_cols : Nat
  max_density : ℚ
  total_routes : Nat
  total_activities : Nat
deriving DecidableEq, Repr

/-- heatmap.rs `CellQueryResult`. -/
structure CellQueryResult where
  cell : HeatmapCell
  suggested_label : String
deriving DecidableEq, Repr

/-- heatmap.rs `CellBuilder`. -/
structure CellBuilder where
  visit_count : Nat
  activity_ids : List String
  route_counts : List (String × Nat)
  route_names : List (String × Option String)
  first_visit : Option Int
  last_visit : Option Int
deriving DecidableEq, Repr

/-- heatmap.rs `HeatmapGrid`; sparse cells are an association list keyed
by grid coordinate, and the running bounds start at the ±INFINITY
sentinels exactly as in Rust. -/
structure HeatmapGrid where
  cell_size_meters : ℚ
  ref_lat : ℚ
  cells : List ((Int × Int) × CellBuilder)
  min_lat : ℚ
  max_lat : ℚ
  min_lng : ℚ
  max_lng : ℚ
deriving DecidableEq, Repr

/-- heatmap.rs `HeatmapGrid::new`. -/
def HeatmapGrid.new (cellSizeMeters : ℚ) : HeatmapGrid :=
  { cell_size_meters := cellSizeMeters
    ref_lat := 0
    cells := []
    min_lat := inftyQ
    max_lat := -inftyQ
    min_lng := inftyQ
    max_lng := -inftyQ }

/-- heatmap.rs `HeatmapGrid::to_grid_coords` (`.floor() as i32`). -/
def toGridCoords (fcos : ℚ → ℚ) (refLat cellSizeMeters lat lng : ℚ) :
    Int × Int :=
  let latMetersPerDeg : ℚ := 111320
  let lngMetersPerDeg : ℚ := 111320 * fcos refLat
  (Int.floor ((lat - refLat) * latMetersPerDeg / cellSizeMeters),
   Int.floor (lng * lngMetersPerDeg / cellSizeMeters))

/-- heatmap.rs `HeatmapGrid::cell_center`. -/
def cellCenter (fcos : ℚ → ℚ) (refLat cellSizeMeters : ℚ)
    (row col : Int) : ℚ × ℚ :=
  let latMetersPerDeg : ℚ := 111320
  let lngMetersPerDeg : ℚ := 111320 * fcos refLat
  (refLat + ((row : ℚ) + 1/2) * cellSizeMeters / latMetersPerDeg,
   ((col : ℚ) + 1/2) * cellSizeMeters / lngMetersPerDeg)

/-- One `entry().or_default()` update of a `CellBuilder`
(heatmap.rs `HeatmapGrid::add_point`, per-cell part). -/
def CellBuilder.update (cell : CellBuilder) (activityId : String)
    (routeId : Option String) (routeName : Option String)
    (timestamp : Option Int) : CellBuilder :=
  let cell1 := { cell with visit_count := cell.visit_count + 1 }
  let cell2 :=
    if cell1.activity_ids.contains activityId then cell1
    else { cell1 with activity_ids := cell1.activity_ids ++ [activityId] }
  let cell3 :=
    match routeId with
    | none => cell2
    | some rid =>
      let counts :=
        if cell2.route_counts.any (fun kv => kv.1 = rid) then
          cell2.route_counts.map fun kv =>
            if kv.1 = rid then (kv.1, kv.2 + 1) else kv
        else cell2.route_counts ++ [(rid, 1)]
      let names :=
        if cell2.route_names.any (fun kv => kv.1 = rid) then cell2.route_names
        else cell2.route_names ++ [(rid, routeName)]
      { cell2 with route_counts := counts, route_names := names }
  match timestamp with
  | none => cell3
  | some ts =>
    { cell3 with
      first_visit := some ((cell3.first_visit.map (min ts)).getD ts)
      last_visit := some ((cell3.last_visit.map (max ts)).getD ts) }

/-- Insert-or-update of the sparse cell map (`cells.entry(key)
.or_default()`; keys are unique, so updating the first match is exact). -/
def gridCellsUpdate :
    List ((Int × Int) × CellBuilder) → Int × Int → String →
      Option String → Option String → Option Int →
      List ((Int × Int) × CellBuilder)
  | [], key, activityId, routeId, routeName, timestamp =>
    [(key, CellBuilder.update ⟨0, [], [], [], none, none⟩
      activityId routeId routeName timestamp)]
  | kv :: rest, key, activityId, routeId, routeName, timestamp =>
    if kv.1 = key then
      (kv.1, kv.2.update activityId routeId routeName timestamp) :: rest
    else kv :: gridCellsUpdate rest key activityId routeId routeName timestamp

/-- heatmap.rs `HeatmapGrid::add_point`. -/
def HeatmapGrid.addPoint (fcos : ℚ → ℚ) (grid : HeatmapGrid)
    (lat lng : ℚ) (activityId : String) (routeId : Option String)
    (routeName : Option String) (timestamp : Option Int) : HeatmapGrid :=
  let grid :=
    { grid with
      min_lat := min grid.min_lat lat
      max_lat := max grid.max_lat lat
      min_lng := min grid.min_lng lng
      max_lng := max grid.max_lng lng }
  let grid := if grid.ref_lat = 0 then { grid with ref_lat := lat } else grid
  let key := toGridCoords fcos grid.ref_lat grid.cell_size_meters lat lng
  { grid with
    cells := gridCellsUpdate grid.cells key activityId routeId routeName
      timestamp }

/-- Deduplicated length, modelling the size of a `HashSet` collected from
a list. -/
def distinctCount (l : List String) : Nat := l.dedup.length

/-- heatmap.rs `HeatmapGrid::build`. -/
def HeatmapGrid.build (fcos : ℚ → ℚ) (grid : HeatmapGrid) : HeatmapResult :=
  if grid.cells.isEmpty then
    { cells := []
      bounds := ⟨0, 0, 0, 0⟩
      cell_size_meters := grid.cell_size_meters
      grid_rows := 0
      grid_cols := 0
      max_density := 0
      total_routes := 0
      total_activities := 0 }
  else
    let maxVisits : Nat :=
      ((grid.cells.map fun kv => kv.2.visit_count).max?).getD 1
    let maxDensity : ℚ := (maxVisits : ℚ)
    let cells : List HeatmapCell := grid.cells.map fun kv =>
      let row := kv.1.1
      let col := kv.1.2
      let builder := kv.2
      let center := cellCenter fcos grid.ref_lat grid.cell_size_meters row col
      let routeRefs : List RouteRef := builder.route_counts.map fun rc =>
        { route_id := rc.1
          activity_count := rc.2
          name := ((builder.route_names.lookup rc.1).getD none) }
      let uniqueRouteCount := routeRefs.length
      { row := row
        col := col
        center_lat := center.1
        center_lng := center.2
        density := (builder.visit_count : ℚ) / maxDensity
        visit_count := builder.visit_count
        route_refs := routeRefs
        unique_route_count := uniqueRouteCount
        activity_ids := builder.activity_ids
        first_visit := builder.first_visit
        last_visit := builder.last_visit
        is_common_path := decide (uniqueRouteCount ≥ 2) }
    let rows := grid.cells.map fun kv => kv.1.1
    let cols := grid.cells.map fun kv => kv.1.2
    let minRow := (rows.min?).getD 0
    let maxRow := (rows.max?).getD 0
    let minCol := (cols.min?).getD 0
    let maxCol := (cols.max?).getD 0
    { cells := cells
      bounds := ⟨grid.min_lat, grid.max_lat, grid.min_lng, grid.max_lng⟩
      cell_size_meters := grid.cell_size_meters
      grid_rows := (maxRow - minRow + 1).toNat
      grid_cols := (maxCol - minCol + 1).toNat
      max_density := maxDensity
      total_routes :=
        distinctCount (grid.cells.flatMap fun kv =>
          kv.2.route_counts.map fun rc => rc.1)
      total_activities :=
        distinctCount (grid.cells.flatMap fun kv => kv.2.activity_ids) }

/-- heatmap.rs `ActivityHeatmapData`. -/
structure ActivityHeatmapData where
  activity_id : String
  route_id : Option String
  route_name : Option String
  timestamp : Option Int
deriving DecidableEq, Repr

/-- The clip-bounds test of the ingestion loop in heatmap.rs
`generate_heatmap` (the `skip` condition on `config.bounds`). -/
def pointClipped (config : HeatmapConfig) (point : GpsPoint) : Bool :=
  match config.bounds with
  | none => false
  | some bounds =>
    point.latitude < bounds.min_lat ∨ point.latitude > bounds.max_lat ∨
    point.longitude < bounds.min_lng ∨ point.longitude > bounds.max_lng

/-- The per-signature ingestion loop of heatmap.rs `generate_heatmap`. -/
def ingestSignature (fcos : ℚ → ℚ) (config : HeatmapConfig)
    (activityData : List (String × ActivityHeatmapData))
    (grid : HeatmapGrid) (sig : RouteSignature) : HeatmapGrid :=
  let data := activityData.lookup sig.activity_id
  let routeId := data.bind fun d => d.route_id
  let routeName := data.bind fun d => d.route_name
  let timestamp := data.bind fun d => d.timestamp
  sig.points.foldl
    (fun grid point =>
      if pointClipped config point then grid
      else
        grid.addPoint fcos point.latitude point.longitude sig.activity_id
          routeId routeName timestamp)
    grid

/-- heatmap.rs `generate_heatmap`. -/
def generateHeatmap (fcos : ℚ → ℚ) (signatures : List RouteSignature)
    (activityData : List (String × ActivityHeatmapData))
    (config : HeatmapConfig) : HeatmapResult :=
  HeatmapGrid.build fcos
    (signatures.foldl (ingestSignature fcos config activityData)
      (HeatmapGrid.new config.cell_size_meters))

/-- heatmap.rs `query_heatmap_cell`. -/
def queryHeatmapCell (fcos : ℚ → ℚ) (heatmap : HeatmapResult)
    (lat lng cellSizeMeters : ℚ) : Option CellQueryResult :=
  if heatmap.cells.isEmpty then none
  else
    let refLat := (heatmap.bounds.min_lat + heatmap.bounds.max_lat) / 2
    let latMetersPerDeg : ℚ := 111320
    let lngMetersPerDeg : ℚ := 111320 * fcos refLat
    let targetRow := Int.floor ((lat - refLat) * latMetersPerDeg / cellSizeMeters)
    let targetCol := Int.floor (lng * lngMetersPerDeg / cellSizeMeters)
    match heatmap.cells.find? (fun c => c.row = targetRow ∧ c.col = targetCol) with
    | none => none
    | some cell =>
      let suggestedLabel :=
        if cell.unique_route_count = 0 then
          if cell.activity_ids.length = 1 then "Explored once"
          else s!"{cell.activity_ids.length} activities (no route)"
        else if cell.unique_route_count = 1 then
          match cell.route_refs with
          | [] => "Route (0 activities)"
          | route :: _ =>
            match route.name with
            | some name => s!"{name} ({route.activity_count}x)"
            | none => s!"Route ({route.activity_count} activities)"
        else if cell.is_common_path then
          s!"Common path ({cell.unique_route_count} routes)"
        else s!"{cell.unique_route_count} routes"
      some { cell := cell, suggested_label := suggestedLabel }

/-! ## sections.rs -/

/-- sections.rs `SectionConfig`. -/
structure SectionConfig where
  proximity_threshold : ℚ
  min_section_length : ℚ
  max_section_length : ℚ
  min_activities : Nat
  cluster_tolerance : ℚ
  sample_points : Nat
deriving DecidableEq, Repr

/-- sections.rs `SectionConfig::default`. -/
def SectionConfig.default : SectionConfig where
  proximity_threshold := 50
  min_section_length := 200
  max_section_length := 5000
  min_activities := 3
  cluster_tolerance := 80
  sample_points := 50

/-- sections.rs `SectionPortion`. -/
structure SectionPortion where
  activity_id : String
  start_index : Nat
  end_index : Nat
  distance_meters : ℚ
  direction : String
deriving DecidableEq, Repr

/-- sections.rs `FrequentSection` (the `activity_traces` HashMap is an
association list in ingestion order). -/
structure FrequentSection where
  id : String
  sport_type : String
  polyline : List GpsPoint
  representative_activity_id : String
  activity_ids : List String
  activity_portions : List SectionPortion
  route_ids : List String
  visit_count : Nat
  distance_meters : ℚ
  activity_traces : List (String × List GpsPoint)
  confidence : ℚ
  observation_count : Nat
  average_spread : ℚ
  point_density : List Nat
deriving DecidableEq, Repr

/-- sections.rs `IndexedPoint`. -/
structure IndexedPoint where
  idx : Nat
  lat : ℚ
  lng : ℚ
deriving DecidableEq, Repr

/-- sections.rs `IndexedPoint::distance_2` (squared degree distance). -/
def distance2 (p : IndexedPoint) (q : ℚ × ℚ) : ℚ :=
  (p.lat - q.1) * (p.lat - q.1) + (p.lng - q.2) * (p.lng - q.2)

/-- sections.rs `build_rtree`: the R-tree is a pure index over the
enumerated points. -/
def buildRtree (points : List GpsPoint) : List IndexedPoint :=
  points.enum.map fun ip => ⟨ip.1, ip.2.latitude, ip.2.longitude⟩

/-- Semantic model of rstar `nearest_neighbor`: a minimum-distance
element (`none` iff the tree is empty).  The real structure may break
exact ties differently; every concrete input below is tie-free wherever
the chosen point (rather than only its distance) matters. -/
def nearestNeighbor (tree : List IndexedPoint) (q : ℚ × ℚ) :
    Option IndexedPoint :=
  tree.foldl
    (fun best p =>
      match best with
      | none => some p
      | some b => if distance2 p q < distance2 b q then some p else best)
    none

/-- sections.rs `FullTrackOverlap`. -/
structure FullTrackOverlap where
  activity_a : String
  activity_b : String
  points_a : List GpsPoint
  points_b : List GpsPoint
  center : GpsPoint
deriving DecidableEq, Repr

/-- `usize::MAX`, the placeholder for an unset `min_b` index. -/
def usizeMAX : Nat := 2 ^ 64 - 1

/-- Scan state of sections.rs `find_full_track_overlap`. -/
structure OverlapScan where
  bestStartA : Option Nat
  bestEndA : Nat
  bestMinB : Nat
  bestMaxB : Nat
  bestLength : ℚ
  curStartA : Option Nat
  curMinB : Nat
  curMaxB : Nat
  curLength : ℚ
deriving DecidableEq, Repr

/-- sections.rs `find_full_track_overlap`: walk track A keeping the
current contiguous near-run against track B's index and the best run so
far.  Note the length accumulation `current_length += d(track_a[i-1], p)`
also fires on the first point of a run when `i > 0`, so a run's recorded
length includes the approach segment from the preceding (non-near)
point. -/
def findFullTrackOverlap (hav : GpsPoint → GpsPoint → ℚ)
    (activityA : String) (trackA : List GpsPoint) (activityB : String)
    (trackB : List GpsPoint) (treeB : List IndexedPoint)
    (config : SectionConfig) : Option FullTrackOverlap :=
  let thresholdDeg := config.proximity_threshold / 111000
  let thresholdDegSq := thresholdDeg * thresholdDeg
  let finalScan := trackA.enum.foldl
    (fun (s : OverlapScan) ip =>
      let i := ip.1
      let pointA := ip.2
      match nearestNeighbor treeB (pointA.latitude, pointA.longitude) with
      | none => s
      | some nearest =>
        let distSq := distance2 nearest (pointA.latitude, pointA.longitude)
        if distSq ≤ thresholdDegSq then
          let s :=
            match s.curStartA with
            | none =>
              { s with curStartA := some i, curMinB := nearest.idx
                       curMaxB := nearest.idx, curLength := 0 }
            | some _ =>
              { s with curMinB := min s.curMinB nearest.idx
                       curMaxB := max s.curMaxB nearest.idx }
          if i > 0 then
            { s with curLength :=
                s.curLength + hav (trackA.getD (i - 1) pointA) pointA }
          else s
        else
          let s :=
            match s.curStartA with
            | some startA =>
              if s.curLength ≥ config.min_section_length ∧
                 s.curLength > s.bestLength then
                { s with bestStartA := some startA, bestEndA := i
                         bestMinB := s.curMinB, bestMaxB := s.curMaxB
                         bestLength := s.curLength }
              else s
            | none => s
          { s with curStartA := none, curLength := 0,
                   curMinB := usizeMAX, curMaxB := 0 })
    ⟨none, 0, usizeMAX, 0, 0, none, usizeMAX, 0, 0⟩
  let finalScan :=
    match finalScan.curStartA with
    | some startA =>
      if finalScan.curLength ≥ config.min_section_length ∧
         finalScan.curLength > finalScan.bestLength then
        { finalScan with bestStartA := some startA, bestEndA := trackA.length
                         bestMinB := finalScan.curMinB
                         bestMaxB := finalScan.curMaxB
                         bestLength := finalScan.curLength }
      else finalScan
    | none => finalScan
  finalScan.bestStartA.map fun startA =>
    let aEnd := finalScan.bestEndA
    let bStart := finalScan.bestMinB
    let bEnd := min (finalScan.bestMaxB + 1) trackB.length
    let pointsA := (trackA.drop startA).take (aEnd - startA)
    let pointsB := (trackB.drop bStart).take (bEnd - bStart)
    { activity_a := activityA
      activity_b := activityB
      points_a := pointsA
      points_b := pointsB
      center := computeCenter pointsA }

/-- sections.rs `OverlapCluster` (the activity-id `HashSet` is a
deduplicated list in insertion order). -/
structure OverlapCluster where
  overlaps : List FullTrackOverlap
  activity_ids : List String
deriving DecidableEq, Repr

/-- `HashSet::insert` for strings, modelled as dedup-append. -/
def setInsert (l : List String) (x : String) : List String :=
  if l.contains x then l else l ++ [x]

/-- sections.rs `overlaps_match`: sample up to 10 points of `polyA` and
require at least half of them within `threshold` meters of `polyB`. -/
def overlapsMatch (hav : GpsPoint → GpsPoint → ℚ)
    (polyA polyB : List GpsPoint) (threshold : ℚ) : Bool :=
  if polyA.isEmpty ∨ polyB.isEmpty then false
  else
    let sampleCount := min 10 polyA.length
    let step := polyA.length / sampleCount
    let idxs := ((List.range polyA.length).filter
      (fun i => i % (max step 1) = 0)).take sampleCount
    let matchCount := (idxs.filter fun i =>
      let point := polyA.getD i ⟨0, 0⟩
      let minDist := (polyB.map (fun p => hav point p)).foldl min inftyQ
      minDist ≤ threshold).length
    matchCount ≥ sampleCount / 2

/-- The inner absorption loop of sections.rs `cluster_overlaps` for a
fixed seed overlap. -/
def clusterAbsorb (hav : GpsPoint → GpsPoint → ℚ)
    (overlaps : List FullTrackOverlap) (config : SectionConfig)
    (seed : FullTrackOverlap)
    (state : List Nat × List FullTrackOverlap × List String) :
    List Nat × List FullTrackOverlap × List String :=
  (List.range overlaps.length).foldl
    (fun (st : List Nat × List FullTrackOverlap × List String) j =>
      let (assigned, covs, cacts) := st
      if assigned.contains j then st
      else
        let other := overlaps.getD j ⟨"", "", [], [], ⟨0, 0⟩⟩
        let centerDist := hav seed.center other.center
        if centerDist ≤ config.cluster_tolerance ∧
           overlapsMatch hav seed.points_a other.points_a
             config.proximity_threshold then
          (assigned ++ [j], covs ++ [other],
           setInsert (setInsert cacts other.activity_a) other.activity_b)
        else st)
    state

/-- sections.rs `cluster_overlaps`. -/
def clusterOverlaps (hav : GpsPoint → GpsPoint → ℚ)
    (overlaps : List FullTrackOverlap) (config : SectionConfig) :
    List OverlapCluster :=
  if overlaps.isEmpty then []
  else
    ((List.range overlaps.length).foldl
      (fun (st : List Nat × List OverlapCluster) i =>
        let (assigned, clusters) := st
        if assigned.contains i then st
        else
          let overlap := overlaps.getD i ⟨"", "", [], [], ⟨0, 0⟩⟩
          let seedActs := setInsert (setInsert [] overlap.activity_a)
            overlap.activity_b
          let (assigned2, covs, cacts) :=
            clusterAbsorb hav overlaps config overlap
              (assigned ++ [i], [overlap], seedActs)
          (assigned2, clusters ++ [⟨covs, cacts⟩]))
      ([], [])).2

/-- sections.rs `resample_by_distance`. -/
def resampleByDistance (hav : GpsPoint → GpsPoint → ℚ)
    (points : List GpsPoint) (n : Nat) : List GpsPoint :=
  if points.length ≤ n then points
  else
    let cumulative := (points.zip points.tail).foldl
      (fun (acc : List ℚ) pq => acc ++ [acc.getLastD 0 + hav pq.1 pq.2]) [0]
    let totalLength := cumulative.getLastD 0
    if totalLength < 1 then points
    else
      (List.range n).map fun i =>
        let targetDist := ((i : ℚ) / ((n - 1 : Nat) : ℚ)) * totalLength
        let segIdx :=
          (((List.range' 1 (cumulative.length - 1)).find?
            (fun j => cumulative.getD j 0 ≥ targetDist)).getD
            (cumulative.length - 1)) - 1
        let segStart := cumulative.getD segIdx 0
        let segEnd := cumulative.getD (segIdx + 1) segStart
        let segLen := segEnd - segStart
        let t := if segLen > 1/1000 then (targetDist - segStart) / segLen else 0
        let p1 := points.getD segIdx ⟨0, 0⟩
        let p2 := points.getD (segIdx + 1) p1
        ⟨p1.latitude + t * (p2.latitude - p1.latitude),
         p1.longitude + t * (p2.longitude - p1.longitude)⟩

/-- sections.rs `average_min_distance` (the medoid-selection AMD, distinct
from the lib.rs function of the same name: it resamples both polylines to
50 points and divides the two directed sums by `2 * 50`). -/
def averageMinDistanceSec (hav : GpsPoint → GpsPoint → ℚ)
    (polyA polyB : List GpsPoint) : ℚ :=
  if polyA.isEmpty ∨ polyB.isEmpty then inftyQ
  else
    let n : Nat := 50
    let resampledA := resampleByDistance hav polyA n
    let resampledB := resampleByDistance hav polyB n
    let sumAtoB := (resampledA.map fun pointA =>
      (resampledB.map (fun p => hav pointA p)).foldl min inftyQ).sum
    let sumBtoA := (resampledB.map fun pointB =>
      (resampledA.map (fun p => hav pointB p)).foldl min inftyQ).sum
    (sumAtoB + sumBtoA) / (2 * (n : ℚ))

/-- sections.rs `select_medoid`. -/
def selectMedoid (hav : GpsPoint → GpsPoint → ℚ)
    (cluster : OverlapCluster) : String × List GpsPoint :=
  let traces := cluster.overlaps.foldl
    (fun (traces : List (String × List GpsPoint)) o =>
      let traces :=
        if traces.any (fun t => t.1 = o.activity_a) then traces
        else traces ++ [(o.activity_a, o.points_a)]
      if traces.any (fun t => t.1 = o.activity_b) then traces
      else traces ++ [(o.activity_b, o.points_b)])
    []
  match traces with
  | [] => ("", [])
  | [t] => t
  | _ =>
    let useFullPairwise := traces.length ≤ 10
    let bestIdx :=
      if useFullPairwise then
        ((List.range traces.length).foldl
          (fun (best : Nat × ℚ) i =>
            let totalAmd := (List.range traces.length).foldl
              (fun acc j =>
                if i ≠ j then
                  acc + averageMinDistanceSec hav
                    (traces.getD i ("", [])).2 (traces.getD j ("", [])).2
                else acc) 0
            if totalAmd < best.2 then (i, totalAmd) else best)
          (0, inftyQ)).1
      else
        let sampleSize := min 5 (traces.length - 1)
        let step := traces.length / sampleSize
        ((List.range traces.length).foldl
          (fun (best : Nat × ℚ) i =>
            let js := (((List.range traces.length).filter
              (fun j => j % (max step 1) = 0)).take sampleSize).filter (· ≠ i)
            let totalAmd := js.foldl
              (fun acc j =>
                acc + averageMinDistanceSec hav
                  (traces.getD i ("", [])).2 (traces.getD j ("", [])).2) 0
            if js.length > 0 then
              let avgAmd := totalAmd / (js.length : ℚ)
              if avgAmd < best.2 then (i, avgAmd) else best
            else best)
          (0, inftyQ)).1
    traces.getD bestIdx ("", [])

/-- sections.rs `detect_direction_robust`. -/
def detectDirectionRobust (trackPortion reference : List GpsPoint)
    (refTree : List IndexedPoint) : String :=
  if trackPortion.length < 3 ∨ reference.length < 3 then "same"
  else
    let sampleCount := min 5 trackPortion.length
    let step := trackPortion.length / sampleCount
    let refIndices := (List.range sampleCount).filterMap fun i =>
      let trackIdx := min (i * step) (trackPortion.length - 1)
      let point := trackPortion.getD trackIdx ⟨0, 0⟩
      (nearestNeighbor refTree (point.latitude, point.longitude)).map
        (fun n => n.idx)
    if refIndices.length < 2 then "same"
    else
      let counts := (refIndices.zip refIndices.tail).foldl
        (fun (fb : Nat × Nat) pr =>
          if pr.2 > pr.1 then (fb.1 + 1, fb.2)
          else if pr.2 < pr.1 then (fb.1, fb.2 + 1)
          else fb)
        (0, 0)
      if counts.2 > counts.1 then "reverse" else "same"

/-- Scan state of sections.rs `find_track_portion`. -/
structure PortionScan where
  startIdx : Option Nat
  endIdx : Nat
  inOverlap : Bool
deriving DecidableEq, Repr

/-- sections.rs `find_track_portion`. -/
def findTrackPortion (track reference : List GpsPoint) (threshold : ℚ) :
    Option (Nat × Nat × String) :=
  if track.isEmpty ∨ reference.isEmpty then none
  else
    let refTree := buildRtree reference
    let thresholdDeg := threshold / 111000
    let thresholdDegSq := thresholdDeg * thresholdDeg
    let scan := track.enum.foldl
      (fun (s : PortionScan) ip =>
        match nearestNeighbor refTree (ip.2.latitude, ip.2.longitude) with
        | none => s
        | some nearest =>
          let distSq := distance2 nearest (ip.2.latitude, ip.2.longitude)
          if distSq ≤ thresholdDegSq then
            let s := if ¬ s.inOverlap then
              { s with startIdx := some ip.1, inOverlap := true } else s
            { s with endIdx := ip.1 + 1 }
          else if s.inOverlap then { s with inOverlap := false }
          else s)
      ⟨none, 0, false⟩
    scan.startIdx.map fun start =>
      let direction := detectDirectionRobust
        ((track.drop start).take (scan.endIdx - start)) reference refTree
      (start, scan.endIdx, direction)

/-- sections.rs `compute_activity_portions`. -/
def computeActivityPortions (hav : GpsPoint → GpsPoint → ℚ)
    (cluster : OverlapCluster)
    (representativePolyline : List GpsPoint)
    (allTracks : List (String × List GpsPoint))
    (config : SectionConfig) : List SectionPortion :=
  cluster.activity_ids.foldl
    (fun portions activityId =>
      match allTracks.lookup activityId with
      | none => portions
      | some track =>
        match findTrackPortion track representativePolyline
            config.proximity_threshold with
        | none => portions
        | some (startIdx, endIdx, direction) =>
          portions ++
            [{ activity_id := activityId
               start_index := startIdx
               end_index := endIdx
               distance_meters :=
                 polylineLength hav ((track.drop startIdx).take (endIdx - startIdx))
               direction := direction }])
    []

/-- sections.rs `TRACE_PROXIMITY_THRESHOLD`. -/
def TRACE_PROXIMITY_THRESHOLD : ℚ := 50

/-- sections.rs `MIN_TRACE_POINTS`. -/
def MIN_TRACE_POINTS : Nat := 3

/-- sections.rs `extract_activity_trace`: all near-sequences of the track
against the polyline, tolerating gaps of up to 3 far points, sequences of
≥3 points kept and (when several) concatenated in order of their first
point's index on the section. -/
def extractActivityTrace (track sectionPolyline : List GpsPoint)
    (polylineTree : List IndexedPoint) : List GpsPoint :=
  if track.length < MIN_TRACE_POINTS ∨ sectionPolyline.length < 2 then []
  else
    let thresholdDeg := (TRACE_PROXIMITY_THRESHOLD * (6/5)) / 111000
    let thresholdDegSq := thresholdDeg * thresholdDeg
    let maxGap : Nat := 3
    let scan := track.foldl
      (fun (st : List (List GpsPoint) × List GpsPoint × Nat) point =>
        let (sequences, currentSequence, gapCount) := st
        let isNear :=
          match nearestNeighbor polylineTree (point.latitude, point.longitude) with
          | none => false
          | some nearest =>
            distance2 nearest (point.latitude, point.longitude) ≤ thresholdDegSq
        if isNear then (sequences, currentSequence ++ [point], 0)
        else
          let gapCount := gapCount + 1
          if gapCount ≤ maxGap ∧ ¬ currentSequence.isEmpty then
            (sequences, currentSequence ++ [point], gapCount)
          else if gapCount > maxGap then
            (if currentSequence.length ≥ MIN_TRACE_POINTS then
              sequences ++ [currentSequence] else sequences, [], 0)
          else (sequences, currentSequence, gapCount))
      ([], [], 0)
    let sequences :=
      if scan.2.1.length ≥ MIN_TRACE_POINTS then scan.1 ++ [scan.2.1]
      else scan.1
    match sequences with
    | [] => []
    | [seq] => seq
    | _ =>
      let sectionTree := buildRtree sectionPolyline
      let sequenceWithPosition := sequences.map fun seq =>
        let startPos :=
          match seq.head? with
          | none => 0
          | some first =>
            ((nearestNeighbor sectionTree (first.latitude, first.longitude)).map
              (fun n : IndexedPoint => n.idx)).getD 0
        (startPos, seq)
      let sorted := sequenceWithPosition.mergeSort
        (fun a b => decide (a.1 ≤ b.1))
      sorted.flatMap fun pr => pr.2

/-- sections.rs `extract_all_activity_traces`. -/
def extractAllActivityTraces (activityIds : List String)
    (sectionPolyline : List GpsPoint)
    (trackMap : List (String × List GpsPoint)) :
    List (String × List GpsPoint) :=
  let polylineTree := buildRtree sectionPolyline
  activityIds.foldl
    (fun traces activityId =>
      match trackMap.lookup activityId with
      | none => traces
      | some track =>
        let trace := extractActivityTrace track sectionPolyline polylineTree
        if trace.isEmpty then traces else traces ++ [(activityId, trace)])
    []

/-- sections.rs `ConsensusResult`. -/
structure ConsensusResult where
  polyline : List GpsPoint
  confidence : ℚ
  observation_count : Nat
  average_spread : ℚ
  point_density : List Nat
deriving DecidableEq, Repr

/-- sections.rs `compute_consensus_polyline`; `fsqrt` models `f64::sqrt`
(applied to the squared degree distance of the chosen nearest point). -/
def computeConsensusPolyline (fsqrt : ℚ → ℚ)
    (reference : List GpsPoint) (allTraces : List (List GpsPoint))
    (proximityThreshold : ℚ) : ConsensusResult :=
  if reference.isEmpty ∨ allTraces.isEmpty then
    { polyline := reference
      confidence := 0
      observation_count := 0
      average_spread := 0
      point_density := reference.map fun _ => 0 }
  else
    let traceTrees := allTraces.map buildRtree
    let thresholdDeg := proximityThreshold / 111000
    let thresholdDegSq := thresholdDeg * thresholdDeg
    let epsilon : ℚ := 1 / 1000000
    let scan := reference.foldl
      (fun (st : List GpsPoint × List Nat × ℚ × Nat) refPoint =>
        let (consensusPoints, pointDensity, totalSpread, totalPointObs) := st
        let inner := traceTrees.enum.foldl
          (fun (acc : ℚ × ℚ × ℚ × List ℚ × Nat) it =>
            let (wLat, wLng, wTot, nearbyDistances, thisObs) := acc
            match nearestNeighbor it.2 (refPoint.latitude, refPoint.longitude) with
            | none => acc
            | some nearest =>
              let distSq := distance2 nearest (refPoint.latitude, refPoint.longitude)
              if distSq ≤ thresholdDegSq then
                let trace := allTraces.getD it.1 []
                let tracePoint := trace.getD nearest.idx ⟨0, 0⟩
                let distDeg := fsqrt distSq
                let distMeters := distDeg * 111000
                let weight := 1 / (distMeters + epsilon)
                (wLat + tracePoint.latitude * weight,
                 wLng + tracePoint.longitude * weight,
                 wTot + weight,
                 nearbyDistances ++ [distMeters],
                 thisObs + 1)
              else acc)
          (0, 0, 0, [], 0)
        let (wLat, wLng, wTot, nearbyDistances, thisObs) := inner
        let pointDensity := pointDensity ++ [thisObs]
        if wTot > 0 then
          let consensusPoints := consensusPoints ++ [⟨wLat / wTot, wLng / wTot⟩]
          if ¬ nearbyDistances.isEmpty then
            (consensusPoints, pointDensity,
             totalSpread + nearbyDistances.sum / (nearbyDistances.length : ℚ),
             totalPointObs + nearbyDistances.length)
          else (consensusPoints, pointDensity, totalSpread, totalPointObs)
        else (consensusPoints ++ [refPoint], pointDensity, totalSpread,
          totalPointObs))
      ([], [], 0, 0)
    let observationCount := traceTrees.length
    let averageSpread :=
      if scan.2.2.2 > 0 then scan.2.2.1 / (reference.length : ℚ)
      else proximityThreshold
    let obsFactor := min (observationCount : ℚ) 10 / 10
    let spreadFactor := 1 - min (averageSpread / proximityThreshold) 1
    let confidence := max (min (obsFactor * (1/2) + spreadFactor * (1/2)) 1) 0
    { polyline := scan.1
      confidence := confidence
      observation_count := observationCount
      average_spread := averageSpread
      point_density := scan.2.1 }

/-- sections.rs `process_cluster`. -/
def processCluster (hav : GpsPoint → GpsPoint → ℚ) (fsqrt : ℚ → ℚ)
    (idx : Nat) (cluster : OverlapCluster) (sportType : String)
    (trackMap : List (String × List GpsPoint))
    (activityToRoute : List (String × String))
    (config : SectionConfig) : Option FrequentSection :=
  let medoid := selectMedoid hav cluster
  let representativeId := medoid.1
  let representativePolyline := medoid.2
  if representativePolyline.isEmpty then none
  else
    let distanceMeters := polylineLength hav representativePolyline
    if distanceMeters > config.max_section_length then none
    else
      let activityPortions := computeActivityPortions hav cluster
        representativePolyline trackMap config
      let routeIds := (cluster.activity_ids.filterMap
        (fun aid => activityToRoute.lookup aid)).dedup
      let activityTraces := extractAllActivityTraces cluster.activity_ids
        representativePolyline trackMap
      let allTraces := activityTraces.map fun kv => kv.2
      let consensus := computeConsensusPolyline fsqrt representativePolyline
        allTraces config.proximity_threshold
      let consensusDistance := polylineLength hav consensus.polyline
      some
        { id := s!"sec_{sportType.toLower}_{idx}"
          sport_type := sportType
          polyline := consensus.polyline
          representative_activity_id := representativeId
          activity_ids := cluster.activity_ids
          activity_portions := activityPortions
          route_ids := routeIds
          visit_count := cluster.overlaps.length + 1
          distance_meters := consensusDistance
          activity_traces := activityTraces
          confidence := consensus.confidence
          observation_count := consensus.observation_count
          average_spread := consensus.average_spread
          point_density := consensus.point_density }

/-- sections.rs `bounds_overlap_tracks`. -/
def boundsOverlapTracks (fcos : ℚ → ℚ)
    (trackA trackB : List GpsPoint) (buffer : ℚ) : Bool :=
  if trackA.isEmpty ∨ trackB.isEmpty then false
  else
    let boundsA := computeBounds trackA
    let boundsB := computeBounds trackB
    let refLat := (boundsA.min_lat + boundsA.max_lat) / 2
    boundsOverlap fcos boundsA boundsB buffer refLat

/-- sections.rs `detect_fold_point`. -/
def detectFoldPoint (polyline : List GpsPoint) (threshold : ℚ) :
    Option Nat :=
  if polyline.length < 10 then none
  else
    let thresholdDeg := threshold / 111000
    let thresholdDegSq := thresholdDeg * thresholdDeg
    let half := polyline.length / 2
    let firstHalfTree := buildRtree (polyline.take half)
    let foldCandidates := (polyline.drop half).enum.filterMap fun ip =>
      let idx := half + ip.1
      match nearestNeighbor firstHalfTree (ip.2.latitude, ip.2.longitude) with
      | none => none
      | some nearest =>
        let distSq := distance2 nearest (ip.2.latitude, ip.2.longitude)
        if distSq ≤ thresholdDegSq then some (idx, distSq) else none
    if foldCandidates.length ≥ 3 then
      (foldCandidates.head?.map fun c => c.1)
    else none

/-- sections.rs `compute_fold_ratio`: how many points of the reversed
last third come within `threshold` of the first third. -/
def computeFoldRatio (polyline : List GpsPoint) (threshold : ℚ) : ℚ :=
  if polyline.length < 6 then 0
  else
    let thresholdDeg := threshold / 111000
    let thresholdDegSq := thresholdDeg * thresholdDeg
    let third := polyline.length / 3
    let firstThird := polyline.take third
    let lastThird := polyline.drop (polyline.length - third)
    let firstTree := buildRtree firstThird
    let closeCount := (lastThird.reverse.filter fun point =>
      match nearestNeighbor firstTree (point.latitude, point.longitude) with
      | none => false
      | some nearest =>
        distance2 nearest (point.latitude, point.longitude) ≤ thresholdDegSq).length
    (closeCount : ℚ) / (third : ℚ)

/-- The per-section body of sections.rs `split_folding_sections`. -/
def splitFoldingOne (hav : GpsPoint → GpsPoint → ℚ)
    (config : SectionConfig) (sect : FrequentSection) :
    List FrequentSection :=
  let foldRatio := computeFoldRatio sect.polyline config.proximity_threshold
  if foldRatio > 1/2 then
    match detectFoldPoint sect.polyline config.proximity_threshold with
    | some foldIdx =>
      let outboundPolyline := sect.polyline.take foldIdx
      let outboundLength := polylineLength hav outboundPolyline
      let part1 :=
        if outboundLength ≥ config.min_section_length then
          [{ sect with
              id := sect.id ++ "_out"
              polyline := outboundPolyline
              distance_meters := outboundLength
              activity_traces := [] }]
        else []
      let returnPolyline := sect.polyline.drop foldIdx
      let returnLength := polylineLength hav returnPolyline
      let part2 :=
        if returnLength ≥ config.min_section_length then
          [{ sect with
              id := sect.id ++ "_ret"
              polyline := returnPolyline
              distance_meters := returnLength
              activity_traces := [] }]
        else []
      part1 ++ part2
    | none => [sect]
  else [sect]

/-- sections.rs `split_folding_sections`. -/
def splitFoldingSections (hav : GpsPoint → GpsPoint → ℚ)
    (sections : List FrequentSection) (config : SectionConfig) :
    List FrequentSection :=
  sections.flatMap (splitFoldingOne hav config)

/-- sections.rs `compute_containment`. -/
def computeContainment (polyA : List GpsPoint)
    (treeB : List IndexedPoint) (threshold : ℚ) : ℚ :=
  if polyA.isEmpty then 0
  else
    let thresholdDeg := threshold / 111000
    let thresholdDegSq := thresholdDeg * thresholdDeg
    let containedPoints := (polyA.filter fun point =>
      match nearestNeighbor treeB (point.latitude, point.longitude) with
      | none => false
      | some nearest =>
        distance2 nearest (point.latitude, point.longitude) ≤ thresholdDegSq).length
    (containedPoints : ℚ) / (polyA.length : ℚ)

/-- sections.rs `merge_nearby_sections`. -/
def mergeNearbySections (sections : List FrequentSection)
    (config : SectionConfig) :
    List FrequentSection :=
  if sections.length < 2 then sections
  else
    let sorted := sections.mergeSort
      (fun a b => decide (b.visit_count ≤ a.visit_count))
    let mergeThreshold := config.proximity_threshold * 2
    let keep := (List.range sorted.length).foldl
      (fun (keep : List Bool) i =>
        if ¬ keep.getD i true then keep
        else
          let sectionI := sorted.getD i
            ⟨"", "", [], "", [], [], [], 0, 0, [], 0, 0, 0, []⟩
          let treeI := buildRtree sectionI.polyline
          (List.range' (i + 1) (sorted.length - (i + 1))).foldl
            (fun keep j =>
              if ¬ keep.getD j true then keep
              else
                let sectionJ := sorted.getD j
                  ⟨"", "", [], "", [], [], [], 0, 0, [], 0, 0, 0, []⟩
                let lengthRatio := sectionI.distance_meters /
                  max sectionJ.distance_meters 1
                if lengthRatio > 3 ∨ lengthRatio < 33/100 then keep
                else
                  let forwardContainment :=
                    computeContainment sectionJ.polyline treeI mergeThreshold
                  let reverseContainment :=
                    computeContainment sectionJ.polyline.reverse treeI
                      mergeThreshold
                  if max forwardContainment reverseContainment > 2/5 then
                    keep.set j false
                  else keep)
            keep)
      (sorted.map fun _ => true)
    ((sorted.zip keep).filter fun sk => sk.2).map fun sk => sk.1

/-- Inner loop of sections.rs `remove_overlapping_sections` for a fixed
`i`; returns the updated keep vector (the `i_in_j > 0.8` branch drops `i`
and breaks out of the loop). -/
def dedupInner (sorted : List FrequentSection) (config : SectionConfig)
    (i : Nat) (sectionI : FrequentSection) (treeI : List IndexedPoint) :
    List Nat → List Bool → List Bool
  | [], keep => keep
  | j :: rest, keep =>
    if ¬ keep.getD j true then dedupInner sorted config i sectionI treeI rest keep
    else
      let sectionJ := sorted.getD j
        ⟨"", "", [], "", [], [], [], 0, 0, [], 0, 0, 0, []⟩
      let treeJ := buildRtree sectionJ.polyline
      let jInI := computeContainment sectionJ.polyline treeI
        config.proximity_threshold
      let iInJ := computeContainment sectionI.polyline treeJ
        config.proximity_threshold
      if jInI > 3/5 then
        dedupInner sorted config i sectionI treeI rest (keep.set j false)
      else if iInJ > 4/5 then keep.set i false
      else if jInI > 2/5 ∧ iInJ > 2/5 then
        dedupInner sorted config i sectionI treeI rest (keep.set j false)
      else dedupInner sorted config i sectionI treeI rest keep

/-- sections.rs `remove_overlapping_sections`. -/
def removeOverlappingSections (sections : List FrequentSection)
    (config : SectionConfig) : List FrequentSection :=
  if sections.length < 2 then sections
  else
    let sorted := sections.mergeSort fun a b =>
      decide (a.distance_meters < b.distance_meters ∨
        (a.distance_meters = b.distance_meters ∧
          b.visit_count ≤ a.visit_count))
    let keep := (List.range sorted.length).foldl
      (fun (keep : List Bool) i =>
        if ¬ keep.getD i true then keep
        else
          let sectionI := sorted.getD i
            ⟨"", "", [], "", [], [], [], 0, 0, [], 0, 0, 0, []⟩
          let treeI := buildRtree sectionI.polyline
          dedupInner sorted config i sectionI treeI
            (List.range' (i + 1) (sorted.length - (i + 1))) keep)
      (sorted.map fun _ => true)
    ((sorted.zip keep).filter fun sk => sk.2).map fun sk => sk.1

/-- sections.rs `SPLIT_DENSITY_RATIO`. -/
def SPLIT_DENSITY_RATIO : ℚ := 2

/-- sections.rs `MIN_SPLIT_LENGTH` (meters). -/
def MIN_SPLIT_LENGTH : ℚ := 100

/-- sections.rs `MIN_SPLIT_POINTS`. -/
def MIN_SPLIT_POINTS : Nat := 10

/-- sections.rs `SplitCandidate`. -/
structure SplitCandidate where
  start_idx : Nat
  end_idx : Nat
  avg_density : ℚ
  density_ratio : ℚ
deriving DecidableEq, Repr

/-- Backward expansion of a high-density region
(`while start_idx > 0 { break if density[start_idx-1] < limit }`). -/
def expandBack (density : List Nat) (limit : ℚ) : Nat → Nat
  | 0 => 0
  | start + 1 =>
    if ((density.getD start 0 : Nat) : ℚ) < limit then start + 1
    else expandBack density limit start

/-- Forward expansion of a high-density region. -/
def expandFwd (density : List Nat) (limit : ℚ) : Nat → Nat → Nat
  | 0, endIdx => endIdx
  | fuel + 1, endIdx =>
    if endIdx < density.length - 1 then
      if ((density.getD (endIdx + 1) 0 : Nat) : ℚ) < limit then endIdx
      else expandFwd density limit fuel (endIdx + 1)
    else endIdx

/-- Sliding-window loop of sections.rs `find_split_candidates`.  `fuel`
only bounds the recursion: `i` strictly increases every step, so any fuel
beyond the density length is never exhausted. -/
def findSplitGo (hav : GpsPoint → GpsPoint → ℚ)
    (density : List Nat) (polyline : List GpsPoint)
    (endpointDensity : ℚ) (windowSize : Nat) :
    Nat → Nat → List SplitCandidate → List SplitCandidate
  | 0, _, candidates => candidates
  | fuel + 1, i, candidates =>
    if i < density.length - windowSize then
      let lo := i - windowSize / 2
      let hi := i + windowSize / 2
      let windowDensity :=
        (((density.drop lo).take (hi - lo)).map (fun d => (d : ℚ))).sum /
          (windowSize : ℚ)
      let ratio := windowDensity / endpointDensity
      if ratio ≥ SPLIT_DENSITY_RATIO then
        let startIdx := expandBack density (endpointDensity * (3/2)) lo
        let endIdx := expandFwd density (endpointDensity * (3/2))
          density.length hi
        let portionDistance :=
          if endIdx > startIdx then
            polylineLength hav
              ((polyline.drop startIdx).take (endIdx - startIdx + 1))
          else 0
        if portionDistance ≥ MIN_SPLIT_LENGTH ∧
           endIdx - startIdx ≥ MIN_SPLIT_POINTS then
          let portionDensity :=
            (((density.drop startIdx).take (endIdx - startIdx + 1)).map
              (fun d => (d : ℚ))).sum / ((endIdx - startIdx + 1 : Nat) : ℚ)
          findSplitGo hav density polyline endpointDensity windowSize fuel
            (endIdx + windowSize)
            (candidates ++
              [{ start_idx := startIdx
                 end_idx := endIdx
                 avg_density := portionDensity
                 density_ratio := portionDensity / endpointDensity }])
        else
          findSplitGo hav density polyline endpointDensity windowSize fuel
            (i + 1) candidates
      else
        findSplitGo hav density polyline endpointDensity windowSize fuel
          (i + 1) candidates
    else candidates

/-- sections.rs `find_split_candidates`. -/
def findSplitCandidates (hav : GpsPoint → GpsPoint → ℚ)
    (sect : FrequentSection) : List SplitCandidate :=
  let density := sect.point_density
  if density.length < MIN_SPLIT_POINTS * 2 then []
  else
    let endpointWindow := max (density.length / 10) 3
    let startDensity :=
      ((density.take endpointWindow).map (fun d => (d : ℚ))).sum /
        (endpointWindow : ℚ)
    let endDensity :=
      ((density.drop (density.length - endpointWindow)).map
        (fun d => (d : ℚ))).sum / (endpointWindow : ℚ)
    let endpointDensity := (startDensity + endDensity) / 2
    if endpointDensity < 1 then []
    else
      let windowSize := max (density.length / 5) MIN_SPLIT_POINTS
      findSplitGo hav density sect.polyline endpointDensity windowSize
        (density.length + windowSize + 2) windowSize []

/-- sections.rs `split_section_by_density`. -/
def splitSectionByDensity (hav : GpsPoint → GpsPoint → ℚ)
    (sect : FrequentSection)
    (trackMap : List (String × List GpsPoint))
    (config : SectionConfig) : List FrequentSection :=
  let candidates := findSplitCandidates hav sect
  if candidates.isEmpty then [sect]
  else
    let thresholdDeg := config.proximity_threshold / 111000
    let thresholdDegSq := thresholdDeg * thresholdDeg
    (candidates.enum.filterMap fun ic =>
      let splitIdx := ic.1
      let candidate := ic.2
      let splitPolyline := (sect.polyline.drop candidate.start_idx).take
        (candidate.end_idx - candidate.start_idx + 1)
      let splitDensity := (sect.point_density.drop candidate.start_idx).take
        (candidate.end_idx - candidate.start_idx + 1)
      let splitDistance := polylineLength hav splitPolyline
      let splitTree := buildRtree splitPolyline
      let collected := sect.activity_ids.foldl
        (fun (st : List String × List (String × List GpsPoint)) activityId =>
          match trackMap.lookup activityId with
          | none => st
          | some track =>
            let overlapPoints := track.filter fun point =>
              match nearestNeighbor splitTree (point.latitude, point.longitude) with
              | none => false
              | some nearest =>
                distance2 nearest (point.latitude, point.longitude) ≤
                  thresholdDegSq
            let overlapDistance := polylineLength hav overlapPoints
            if overlapDistance ≥ splitDistance * (1/2) then
              (st.1 ++ [activityId],
               if ¬ overlapPoints.isEmpty then
                 st.2 ++ [(activityId, overlapPoints)]
               else st.2)
            else st)
        ([], [])
      if collected.1.length ≥ config.min_activities then
        some
          { id := sect.id ++ s!"_split{splitIdx}"
            sport_type := sect.sport_type
            polyline := splitPolyline
            representative_activity_id := sect.representative_activity_id
            activity_ids := collected.1
            activity_portions := []
            route_ids := sect.route_ids
            visit_count := (Int.floor candidate.avg_density).toNat
            distance_meters := splitDistance
            activity_traces := collected.2
            confidence := sect.confidence
            observation_count := (Int.floor candidate.avg_density).toNat
            average_spread := sect.average_spread
            point_density := splitDensity }
      else none) ++ [sect]

/-- sections.rs `split_high_variance_sections`. -/
def splitHighVarianceSections (hav : GpsPoint → GpsPoint → ℚ)
    (sections : List FrequentSection)
    (trackMap : List (String × List GpsPoint))
    (config : SectionConfig) : List FrequentSection :=
  sections.flatMap fun sect => splitSectionByDensity hav sect trackMap config

/-- One sport's processing inside sections.rs
`detect_sections_from_tracks`: pairwise overlaps, clustering, cluster →
section conversion and the four post-processing stages. -/
def detectSectionsForSport (fcos : ℚ → ℚ) (fsqrt : ℚ → ℚ)
    (hav : GpsPoint → GpsPoint → ℚ)
    (trackMap : List (String × List GpsPoint))
    (activityToRoute : List (String × String)) (config : SectionConfig)
    (sportType : String) (sportTracks : List (String × List GpsPoint)) :
    List FrequentSection :=
  let rtrees := sportTracks.map fun t => buildRtree t.2
  let pairs := (List.range sportTracks.length).flatMap fun i =>
    (List.range' (i + 1) (sportTracks.length - (i + 1))).map fun j => (i, j)
  let overlaps := pairs.filterMap fun ij =>
    let ta := sportTracks.getD ij.1 ("", [])
    let tb := sportTracks.getD ij.2 ("", [])
    if ¬ boundsOverlapTracks fcos ta.2 tb.2 config.proximity_threshold then
      none
    else
      findFullTrackOverlap hav ta.1 ta.2 tb.1 tb.2 (rtrees.getD ij.2 [])
        config
  let clusters := clusterOverlaps hav overlaps config
  let significantClusters := clusters.filter fun c =>
    c.activity_ids.length ≥ config.min_activities
  let sportSections := significantClusters.enum.filterMap fun ic =>
    processCluster hav fsqrt ic.1 ic.2 sportType trackMap activityToRoute
      config
  let splitSections := splitFoldingSections hav sportSections config
  let mergedSections := mergeNearbySections splitSections config
  let dedupedSections := removeOverlappingSections mergedSections config
  splitHighVarianceSections hav dedupedSections trackMap config

/-- sections.rs `detect_sections_from_tracks`.  The iteration order over
sport types is unspecified in Rust (`HashMap` iteration); here it is the
first-appearance order of sports in the input, which only influences the
opaque section ids and (for distinct sports) the pre-sort list order. -/
def detectSectionsFromTracks (fcos : ℚ → ℚ) (fsqrt : ℚ → ℚ)
    (hav : GpsPoint → GpsPoint → ℚ)
    (tracks : List (String × List GpsPoint))
    (sportTypes : List (String × String)) (groups : List RouteGroup)
    (config : SectionConfig) : List FrequentSection :=
  if tracks.length < config.min_activities then []
  else
    let significantGroups := groups.filter fun g => g.activity_ids.length ≥ 2
    let activityToRoute := significantGroups.foldl
      (fun (m : List (String × String)) g =>
        g.activity_ids.foldl (fun m aid => alInsert m aid g.group_id) m)
      []
    let trackMap := tracks.foldl
      (fun (m : List (String × List GpsPoint)) t => alInsert m t.1 t.2) []
    let tracksBySport := tracks.foldl
      (fun (m : List (String × List (String × List GpsPoint))) t =>
        let sport := (sportTypes.lookup t.1).getD "Unknown"
        if m.any (fun kv => kv.1 = sport) then
          m.map fun kv => if kv.1 = sport then (kv.1, kv.2 ++ [t]) else kv
        else m ++ [(sport, [t])])
      []
    let allSections := (tracksBySport.foldl
      (fun (st : List FrequentSection × Nat) kv =>
        let (allSections, sectionCounter) := st
        if kv.2.length < config.min_activities then st
        else
          let finalSections := detectSectionsForSport fcos fsqrt hav trackMap
            activityToRoute config kv.1 kv.2
          let renumbered := finalSections.enum.map fun is =>
            { is.2 with
                id := s!"sec_{kv.1.toLower}_{sectionCounter + is.1}" }
          let newAll := allSections ++ renumbered
          (newAll, sectionCounter + newAll.length))
      ([], 0)).1
    allSections.mergeSort fun a b => decide (b.visit_count ≤ a.visit_count)

/-- sections.rs `detect_frequent_sections` (legacy wrapper over
signatures). -/
def detectFrequentSections (fcos : ℚ → ℚ) (fsqrt : ℚ → ℚ)
    (hav : GpsPoint → GpsPoint → ℚ)
    (signatures : List RouteSignature) (groups : List RouteGroup)
    (sportTypes : List (String × String)) (config : SectionConfig) :
    List FrequentSection :=
  detectSectionsFromTracks fcos fsqrt hav
    (signatures.map fun sig => (sig.activity_id, sig.points))
    sportTypes groups config

/-! ## Concrete instances

Computable surrogates for the three transcendental parameters, together
with the concrete inputs used by counterexamples and witnesses.  All
construction points lie on the meridian `longitude = 0`, where the real
haversine distance is exactly linear in the latitude difference
(`≈ 111194.93 m` per degree); the surrogate uses the scale `111195` and
every branch the code takes on these inputs has a wide margin, so the
branch-by-branch behaviour equals that of the Rust code. -/

/-- Computable surrogate for `haversine_distance`: a scaled taxicab
metric, which agrees with the haversine (up to `0.0007%`) on a single
meridian. -/
def taxiDist (p q : GpsPoint) : ℚ :=
  111195 * (|p.latitude - q.latitude| + |p.longitude - q.longitude|)

/-- Surrogate for `f64::sqrt`; the concrete runs below only ever apply it
to `0`, where it agrees with the real square root. -/
def sqrtZero (_ : ℚ) : ℚ := 0

/-- Surrogate for `fun x => (x.to_radians()).cos()`; the concrete runs
below only use it at latitudes within `0.1°` of the equator, where the
real cosine is `1` up to `2e-6`, and every comparison involving it has a
wide margin. -/
def cosOne (_ : ℚ) : ℚ := 1

/-- A point on the zero meridian, `k` units of `1e-4` degrees
(≈ 11.12 m) north. -/
def uPt (k : ℚ) : GpsPoint := ⟨k / 10000, 0⟩

/-- A point on the zero meridian `m` (surrogate) meters north. -/
def mPt (m : ℚ) : GpsPoint := ⟨m / 111195, 0⟩

/-- A signature over given meridian points with all derived fields
consistent (`total_distance` is the polyline distance, `start`/`end` are
first/last, bounds and center are computed). -/
def mkMeridianSig (id : String) (pts : List GpsPoint) : RouteSignature :=
  { activity_id := id
    points := pts
    total_distance := calculateRouteDistance taxiDist pts
    start_point := pts.headD ⟨0, 0⟩
    end_point := pts.getLastD ⟨0, 0⟩
    bounds := (Bounds.from_points pts).getD ⟨0, 0, 0, 0⟩
    center := ((Bounds.from_points pts).getD ⟨0, 0, 0, 0⟩).center }

/-! ## Partition lemmas (C1, C2)

The group-building loop pushes each signature's id into exactly one
bucket, whatever the union-find state; hence the emitted groups cover the
input ids with multiplicity one.  None of this depends on the distance
function or on which unions were performed. -/

/-- All member ids of a group list, with multiplicity. -/
def memberList (groups : List RouteGroup) : List String :=
  groups.flatMap fun g => g.activity_ids

theorem count_bucketAdd (buckets : List (String × List String))
    (root id x : String) :
    ((bucketAdd buckets root id).flatMap (fun kv => kv.2)).count x =
      ((buckets.flatMap (fun kv => kv.2)).count x) +
        (if id = x then 1 else 0) := by
  induction buckets with
  | nil => simp [bucketAdd, List.count_cons]
  | cons kv rest ih =>
    by_cases h : kv.1 = root
    · simp [bucketAdd, h, List.count_append, List.count_cons]
      ring
    · simp [bucketAdd, h, List.count_append, ih]
      ring

theorem count_buildBuckets (fuel : Nat) (sigs : List RouteSignature) :
    ∀ (parent : List (String × String))
      (buckets : List (String × List String)) (x : String),
    ((buildBuckets fuel sigs parent buckets).flatMap (fun kv => kv.2)).count x =
      ((buckets.flatMap (fun kv => kv.2)).count x) +
        ((sigs.map (fun s => s.activity_id)).count x) := by
  induction sigs with
  | nil => intro parent buckets x; simp [buildBuckets]
  | cons sig rest ih =>
    intro parent buckets x
    simp only [buildBuckets]
    rw [ih, count_bucketAdd]
    simp [List.count_cons]
    by_cases h : sig.activity_id = x
    · simp [h]; ring
    · simp [h]

theorem memberList_bucketsToGroups (buckets : List (String × List String)) :
    memberList (bucketsToGroups buckets) =
      buckets.flatMap (fun kv => kv.2) := by
  induction buckets with
  | nil => simp [memberList, bucketsToGroups]
  | cons kv rest ih =>
    simp only [memberList, bucketsToGroups, List.map_cons, List.flatMap_cons]
      at ih ⊢
    rw [ih]

theorem countP_contains_of_count_zero (ls : List (List String)) (a : String)
    (h : (ls.flatten).count a = 0) :
    ls.countP (fun g => decide (a ∈ g)) = 0 := by
  induction ls with
  | nil => simp
  | cons g rest ih =>
    simp only [List.flatten_cons, List.count_append] at h
    have hg : a ∉ g := by
      intro hmem
      have : 0 < g.count a := List.count_pos_iff.mpr hmem
      omega
    have hrest := ih (by omega)
    simp [List.countP_cons, hg, hrest]

theorem countP_contains_of_count_one (ls : List (List String)) (a : String)
    (h : (ls.flatten).count a = 1) :
    ls.countP (fun g => decide (a ∈ g)) = 1 := by
  induction ls with
  | nil => simp at h
  | cons g rest ih =>
    simp only [List.flatten_cons, List.count_append] at h
    by_cases hg : a ∈ g
    · have hgpos : 0 < g.count a := List.count_pos_iff.mpr hg
      have hrest : (rest.flatten).count a = 0 := by omega
      have := countP_contains_of_count_zero rest a hrest
      simp [List.countP_cons, hg, this]
    · have hgz : g.count a = 0 := by
        simpa [List.count_eq_zero] using hg
      have hrest := ih (by omega)
      simp [List.countP_cons, hg, hrest]

/-- The two partition facts, as used by claims C1 and C2: every id of
`ids` is in exactly one group's member list, and every member id comes
from `ids`. -/
def PartitionsIds (groups : List RouteGroup) (ids : List String) : Prop :=
  (∀ id ∈ ids, groups.countP (fun g => decide (id ∈ g.activity_ids)) = 1) ∧
  (∀ g ∈ groups, ∀ a ∈ g.activity_ids, a ∈ ids)

theorem partitionsIds_of_count
    (groups : List RouteGroup) (ids : List String)
    (hnodup : ids.Nodup)
    (hcount : ∀ x, (memberList groups).count x = ids.count x) :
    PartitionsIds groups ids := by
  constructor
  · intro id hid
    have h1 : ids.count id = 1 := List.count_eq_one_of_mem hnodup hid
    have h2 : (memberList groups).count id = 1 := by rw [hcount, h1]
    have h3 : ((groups.map (fun g => g.activity_ids)).flatten).count id = 1 := by
      simpa [memberList, List.flatMap_def] using h2
    have h4 := countP_contains_of_count_one
      (groups.map (fun g => g.activity_ids)) id h3
    simpa [List.countP_map, Function.comp] using h4
  · intro g hg a ha
    have hmem : a ∈ memberList groups := by
      simp only [memberList, List.mem_flatMap]
      exact ⟨g, hg, ha⟩
    have := List.count_pos_iff.mpr hmem
    rw [hcount] at this
    exact List.count_pos_iff.mp this

theorem groupSignatures_count (hav : GpsPoint → GpsPoint → ℚ)
    (signatures : List RouteSignature) (config : MatchConfig) (x : String) :
    (memberList (groupSignatures hav signatures config)).count x =
      (signatures.map (fun s => s.activity_id)).count x := by
  by_cases hne : signatures.isEmpty
  · have : signatures = [] := by
      cases signatures <;> simp_all
    simp [this, groupSignatures, memberList]
  · simp only [groupSignatures, hne, if_neg, Bool.false_eq_true,
      not_false_iff, if_false]
    rw [memberList_bucketsToGroups, count_buildBuckets]
    simp

theorem groupSignaturesParallel_count (hav : GpsPoint → GpsPoint → ℚ)
    (signatures : List RouteSignature) (config : MatchConfig) (x : String) :
    (memberList (groupSignaturesParallel hav signatures config)).count x =
      (signatures.map (fun s => s.activity_id)).count x := by
  by_cases hne : signatures.isEmpty
  · have : signatures = [] := by
      cases signatures <;> simp_all
    simp [this, groupSignaturesParallel, memberList]
  · simp only [groupSignaturesParallel, hne, Bool.false_eq_true,
      not_false_iff, if_false]
    rw [memberList_bucketsToGroups, count_buildBuckets]
    simp

theorem groupIncremental_count (hav : GpsPoint → GpsPoint → ℚ)
    (newSigs existingSigs : List RouteSignature) (config : MatchConfig)
    (x : String) :
    (memberList (groupIncremental hav newSigs
        (groupSignaturesParallel hav existingSigs config)
        existingSigs config)).count x =
      ((existingSigs ++ newSigs).map (fun s => s.activity_id)).count x := by
  rcases hn : newSigs with _ | ⟨n, ns⟩
  · simpa [groupIncremental] using
      groupSignaturesParallel_count hav existingSigs config x
  · by_cases hex :
      (groupSignaturesParallel hav existingSigs config).isEmpty = true
    · have hexist : existingSigs = [] := by
        rcases he : existingSigs with _ | ⟨s, rest⟩
        · rfl
        · exfalso
          have h1 := groupSignaturesParallel_count hav (s :: rest) config
            s.activity_id
          have h2 : groupSignaturesParallel hav (s :: rest) config = [] := by
            rw [← he]
            exact List.isEmpty_iff.mp (he ▸ hex)
          rw [h2] at h1
          simp [memberList, List.count_cons] at h1
      subst hexist
      simpa [groupIncremental, List.isEmpty_iff.mp hex] using
        groupSignaturesParallel_count hav (n :: ns) config x
    · have hgne : groupSignaturesParallel hav existingSigs config ≠ [] := by
        intro h
        rw [h] at hex
        simp at hex
      simp only [groupIncremental, List.isEmpty_cons, if_neg, Bool.false_eq_true,
        not_false_iff]
      rw [if_neg (by simpa using hgne)]
      rw [memberList_bucketsToGroups, count_buildBuckets]
      simp

/-- C1: for pairwise-distinct activity ids, the groups returned by
`group_signatures` partition the input: every input id appears in the
member list of exactly one returned group, and every member is an input
id. -/
theorem C1_group_signatures_partitions (hav : GpsPoint → GpsPoint → ℚ)
    (signatures : List RouteSignature) (config : MatchConfig)
    (hnodup : (signatures.map (fun s => s.activity_id)).Nodup) :
    PartitionsIds (groupSignatures hav signatures config)
      (signatures.map (fun s => s.activity_id)) :=
  partitionsIds_of_count _ _ hnodup
    (groupSignatures_count hav signatures config)

/-- Prior signature of the C2 scenario: six points northbound along the
zero meridian at 0, 200, 400, 990, 995 and 1000 surrogate meters. -/
def sigPriorA : RouteSignature :=
  mkMeridianSig "a" ([0, 200, 400, 990, 995, 1000].map mPt)

/-- New signature of the C2 scenario: five points southbound along the
same meridian at 1000, 820, 500, 180 and 0 surrogate meters. -/
def sigNewB : RouteSignature :=
  mkMeridianSig "b" ([1000, 820, 500, 180, 0].map mPt)

/-- C1 witness input. -/
theorem C1_witness :
    PartitionsIds
      (groupSignatures taxiDist [sigPriorA, sigNewB] MatchConfig.default)
      ([sigPriorA, sigNewB].map (fun s => s.activity_id)) :=
  C1_group_signatures_partitions taxiDist [sigPriorA, sigNewB]
    MatchConfig.default (by decide)

/-- C2 counterexample: with prior signature `a` (northbound, six points)
batch-grouped on its own, and new signature `b` (the same meridian path
southbound, five points), incremental grouping puts `a` and `b` in one
group while batch grouping of both leaves them apart.  The cause:
`should_group_routes` is orientation-sensitive in its middle-point check
for reverse-paired routes of different point counts (it compares
`points1[len1/2]` against `reversed points2[len2/2]`, which are different
point pairs in the two orientations), and the batch grouper evaluates the
pair as `(a, b)` (lexicographic) while the incremental grouper evaluates
it as `(new, existing) = (b, a)`. -/
theorem C2_counterexample :
    (∃ g ∈ groupIncremental taxiDist [sigNewB]
        (groupSignaturesParallel taxiDist [sigPriorA] MatchConfig.default)
        [sigPriorA] MatchConfig.default,
      "a" ∈ g.activity_ids ∧ "b" ∈ g.activity_ids) ∧
    (∀ g ∈ groupSignaturesParallel taxiDist [sigPriorA, sigNewB]
        MatchConfig.default,
      ¬ ("a" ∈ g.activity_ids ∧ "b" ∈ g.activity_ids)) := by decide!

/-- C2 (amended): `group_incremental` over batch-grouped prior groups
still yields a partition of the combined id set — every combined id in
exactly one group — but it need not be the same partition as batch
grouping of the union. -/
theorem C2_incremental_partitions (hav : GpsPoint → GpsPoint → ℚ)
    (newSigs existingSigs : List RouteSignature) (config : MatchConfig)
    (hnodup : ((existingSigs ++ newSigs).map (fun s => s.activity_id)).Nodup) :
    PartitionsIds
      (groupIncremental hav newSigs
        (groupSignaturesParallel hav existingSigs config)
        existingSigs config)
      ((existingSigs ++ newSigs).map (fun s => s.activity_id)) :=
  partitionsIds_of_count _ _ hnodup
    (groupIncremental_count hav newSigs existingSigs config)

/-- C2 witness input. -/
theorem C2_witness :
    PartitionsIds
      (groupIncremental taxiDist [sigNewB]
        (groupSignaturesParallel taxiDist [sigPriorA] MatchConfig.default)
        [sigPriorA] MatchConfig.default)
      (([sigPriorA] ++ [sigNewB]).map (fun s => s.activity_id)) :=
  C2_incremental_partitions taxiDist [sigNewB] [sigPriorA]
    MatchConfig.default (by decide)

/-! ## C5: section length bounds -/

/-- C5 tracks: three same-sport tracks that jump from a distant point
onto the same short 3-point path (≈ 22 m).  The jump segment makes each
pairwise near-run's accumulated length exceed `min_section_length`
(the accumulation includes the approach segment), while the actual
overlap polylines, and hence the medoid and the final section, are only
22 m long. -/
def tracksC5 : List (String × List GpsPoint) :=
  [("a", [uPt 1000, uPt 0, uPt 1, uPt 2]),
   ("b", [uPt 2001, uPt 0, uPt 1, uPt 2]),
   ("c", [uPt 3002, uPt 0, uPt 1, uPt 2])]

/-- C5 sport map: all three tracks are runs. -/
def sportsC5 : List (String × String) :=
  [("a", "Run"), ("b", "Run"), ("c", "Run")]

/-- C5 counterexample: the pipeline emits a section whose polyline is
about 22 m long, far below `min_section_length = 200`; the lower bound is
never enforced on emitted sections (only `max_section_length` is checked,
against the medoid). -/
theorem C5_counterexample :
    ∃ s ∈ detectSectionsFromTracks cosOne sqrtZero taxiDist tracksC5
        sportsC5 [] SectionConfig.default,
      polylineLength taxiDist s.polyline <
        SectionConfig.default.min_section_length := by decide!

/-- C5 (amended): the only length filter applied when a cluster becomes a
section is the upper bound, checked against the medoid polyline before
consensus refinement; whenever `process_cluster` emits a section, the
medoid length is at most `max_section_length`.  No lower bound holds for
emitted sections. -/
theorem C5_max_length_checked_at_medoid (hav : GpsPoint → GpsPoint → ℚ)
    (fsqrt : ℚ → ℚ) (idx : Nat) (cluster : OverlapCluster)
    (sportType : String) (trackMap : List (String × List GpsPoint))
    (activityToRoute : List (String × String)) (config : SectionConfig)
    (hsome : (processCluster hav fsqrt idx cluster sportType trackMap
      activityToRoute config).isSome = true) :
    polylineLength hav (selectMedoid hav cluster).2 ≤
      config.max_section_length := by
  by_cases h1 : (selectMedoid hav cluster).2.isEmpty
  · simp [processCluster, h1] at hsome
  · by_cases h2 : polylineLength hav (selectMedoid hav cluster).2 >
      config.max_section_length
    · simp [processCluster, h1, h2] at hsome
    · exact le_of_not_lt h2

/-- C5 witness cluster: one overlap between two tracks sharing the short
path. -/
def clusterC5 : OverlapCluster :=
  { overlaps := [{ activity_a := "a", activity_b := "b"
                   points_a := [uPt 0, uPt 1, uPt 2]
                   points_b := [uPt 0, uPt 1, uPt 2]
                   center := uPt 1 }]
    activity_ids := ["a", "b"] }

/-- C5 witness input. -/
theorem C5_witness :
    polylineLength taxiDist (selectMedoid taxiDist clusterC5).2 ≤
      SectionConfig.default.max_section_length :=
  C5_max_length_checked_at_medoid taxiDist sqrtZero 0 clusterC5 "Run" [] []
    SectionConfig.default (by decide!)

/-! ## C6: fold splitting -/

/-- C6 input: an out-and-back section (units 0‥10‥0, 21 points) with one
member activity whose track is the same path. -/
def foldPathC6 : List GpsPoint :=
  ((List.range 11).map fun k => uPt (k : ℚ)) ++
    ((List.range 10).reverse.map fun k => uPt (k : ℚ))

/-- C6 input section. -/
def sectC6 : FrequentSection :=
  { id := "sec_run_0"
    sport_type := "Run"
    polyline := foldPathC6
    representative_activity_id := "a"
    activity_ids := ["a"]
    activity_portions := []
    route_ids := []
    visit_count := 4
    distance_meters := polylineLength taxiDist foldPathC6
    activity_traces := [("a", foldPathC6)]
    confidence := 1/2
    observation_count := 1
    average_spread := 0
    point_density := foldPathC6.map fun _ => 3 }

/-- C6 section config (smaller `min_section_length` so both halves are
kept). -/
def cfgC6 : SectionConfig :=
  { SectionConfig.default with min_section_length := 50 }

/-- C6 track map for the member activity. -/
def trackMapC6 : List (String × List GpsPoint) := [("a", foldPathC6)]

/-- C6 counterexample: fold splitting keeps both halves (their lengths
exceed `min_section_length`), but the kept halves carry an *empty*
activity-trace map, not traces recomputed against the half polylines —
recomputing against the half polyline would give a non-empty trace for
the member activity. -/
theorem C6_counterexample :
    ∃ s ∈ splitFoldingSections taxiDist [sectC6] cfgC6,
      cfgC6.min_section_length ≤ polylineLength taxiDist s.polyline ∧
      s.activity_traces = [] ∧
      extractAllActivityTraces s.activity_ids s.polyline trackMapC6 ≠ [] := by
  decide!

/-- The outbound half produced by a fold split: polyline and distance
replaced by the prefix, traces cleared. -/
def foldOutboundOf (hav : GpsPoint → GpsPoint → ℚ) (s : FrequentSection)
    (idx : Nat) : FrequentSection :=
  { s with
    id := s.id ++ "_out"
    polyline := s.polyline.take idx
    distance_meters := polylineLength hav (s.polyline.take idx)
    activity_traces := [] }

/-- The return half produced by a fold split. -/
def foldReturnOf (hav : GpsPoint → GpsPoint → ℚ) (s : FrequentSection)
    (idx : Nat) : FrequentSection :=
  { s with
    id := s.id ++ "_ret"
    polyline := s.polyline.drop idx
    distance_meters := polylineLength hav (s.polyline.drop idx)
    activity_traces := [] }

/-- C6 (amended): when the fold ratio exceeds 0.5 and a fold point is
found, each half is kept iff its polyline length is at least
`min_section_length`, and each kept half carries a *cleared* (empty)
per-activity trace map together with the half polyline and its length;
no trace recomputation happens. -/
theorem C6_fold_split_halves (hav : GpsPoint → GpsPoint → ℚ)
    (s : FrequentSection) (config : SectionConfig) (idx : Nat)
    (hratio : computeFoldRatio s.polyline config.proximity_threshold > 1/2)
    (hidx : detectFoldPoint s.polyline config.proximity_threshold = some idx) :
    splitFoldingSections hav [s] config =
      (if polylineLength hav (s.polyline.take idx) ≥
          config.min_section_length
        then [foldOutboundOf hav s idx] else []) ++
      (if polylineLength hav (s.polyline.drop idx) ≥
          config.min_section_length
        then [foldReturnOf hav s idx] else []) := by
  simp only [splitFoldingSections, List.flatMap_cons, List.flatMap_nil,
    List.append_nil, splitFoldingOne, hidx, if_pos hratio,
    foldOutboundOf, foldReturnOf]

/-- C6 witness input. -/
theorem C6_witness :
    splitFoldingSections taxiDist [sectC6] cfgC6 =
      (if polylineLength taxiDist (sectC6.polyline.take 10) ≥
          cfgC6.min_section_length
        then [foldOutboundOf taxiDist sectC6 10] else []) ++
      (if polylineLength taxiDist (sectC6.polyline.drop 10) ≥
          cfgC6.min_section_length
        then [foldReturnOf taxiDist sectC6 10] else []) :=
  C6_fold_split_halves taxiDist sectC6 cfgC6 10 (by decide!) (by decide!)

/-! ## C3: self-comparison -/

theorem resampleWhile_append (targetCount : Nat) (stepDist : ℚ)
    (prev curr : GpsPoint) (segDist accumulated : ℚ) :
    ∀ (fuel : Nat) (nextThreshold : ℚ) (resampled : List GpsPoint),
      ∃ t, (resampleWhile targetCount stepDist prev curr segDist
        accumulated fuel nextThreshold resampled).2 = resampled ++ t := by
  intro fuel
  induction fuel with
  | zero => intro next res; exact ⟨[], by simp [resampleWhile]⟩
  | succ fuel ih =>
    intro next res
    by_cases h : accumulated + segDist ≥ next ∧ res.length < targetCount - 1
    · obtain ⟨t, ht⟩ := ih (next + stepDist)
        (res ++ [lerpPoint prev curr ((next - accumulated) / segDist)])
      exact ⟨[lerpPoint prev curr ((next - accumulated) / segDist)] ++ t,
        by rw [resampleWhile, if_pos h, ht, List.append_assoc]⟩
    · exact ⟨[], by rw [resampleWhile, if_neg h]; simp⟩

theorem resampleWalk_append (hav : GpsPoint → GpsPoint → ℚ)
    (targetCount : Nat) (stepDist : ℚ) :
    ∀ (rest : List GpsPoint) (prev : GpsPoint)
      (accumulated nextThreshold : ℚ) (resampled : List GpsPoint),
      ∃ t, (resampleWalk hav targetCount stepDist rest prev accumulated
        nextThreshold resampled).2.2 = resampled ++ t := by
  intro rest
  induction rest with
  | nil => intro prev acc next res; exact ⟨[], by simp [resampleWalk]⟩
  | cons curr rest ih =>
    intro prev acc next res
    obtain ⟨t1, ht1⟩ := resampleWhile_append targetCount stepDist prev curr
      (hav prev curr) acc targetCount next res
    obtain ⟨t2, ht2⟩ := ih curr (acc + hav prev curr)
      (resampleWhile targetCount stepDist prev curr (hav prev curr) acc
        targetCount next res).1
      (resampleWhile targetCount stepDist prev curr (hav prev curr) acc
        targetCount next res).2
    refine ⟨t1 ++ t2, ?_⟩
    rw [resampleWalk, ht2, ht1, List.append_assoc]

theorem resampleRoute_head (hav : GpsPoint → GpsPoint → ℚ)
    (points : List GpsPoint) (targetCount : Nat)
    (hpts : points ≠ []) (htc : 1 ≤ targetCount) :
    (resampleRoute hav points targetCount).head? = points.head? ∧
      resampleRoute hav points targetCount ≠ [] := by
  rw [resampleRoute]
  by_cases h1 : points.length < 2
  · simp [h1, hpts]
  · rw [if_neg h1]
    by_cases h2 : points.length = targetCount
    · simp [h2, hpts]
    · rw [if_neg h2]
      by_cases h3 : calculateRouteDistance hav points = 0
      · rw [if_pos h3]
        rcases points with _ | ⟨p, rest⟩
        · exact absurd rfl hpts
        · have hmin : 1 ≤ min targetCount (p :: rest).length := by
            simp [Nat.one_le_iff_ne_zero]
            omega
          constructor
          · rcases hk : min targetCount (p :: rest).length with _ | k
            · omega
            · simp [List.take_cons]
          · intro hcontra
            have := congrArg List.length hcontra
            simp at this
            omega
      · rw [if_neg h3]
        rcases points with _ | ⟨p0, rest⟩
        · exact absurd rfl hpts
        · obtain ⟨t, ht⟩ := resampleWalk_append hav targetCount
            (calculateRouteDistance hav (p0 :: rest) /
              ((targetCount - 1 : Nat) : ℚ))
            rest p0 0
            (calculateRouteDistance hav (p0 :: rest) /
              ((targetCount - 1 : Nat) : ℚ))
            [p0]
          simp only
          split
          · rw [ht]
            constructor
            · simp
            · simp
          · rw [ht]
            constructor
            · simp
            · simp

theorem foldl_min_le_init (l : List ℚ) : ∀ a, l.foldl min a ≤ a := by
  induction l with
  | nil => intro a; simp
  | cons y ys ih =>
    intro a
    simp only [List.foldl_cons]
    exact le_trans (ih (min a y)) (min_le_left a y)

theorem foldl_min_le (l : List ℚ) (x : ℚ) (hx : x ∈ l) :
    ∀ a, l.foldl min a ≤ x := by
  induction l with
  | nil => cases hx
  | cons y ys ih =>
    intro a
    rcases List.mem_cons.mp hx with h | h
    · subst h
      simp only [List.foldl_cons]
      exact le_trans (foldl_min_le_init ys (min a x)) (min_le_right a x)
    · exact ih h _

theorem foldl_min_nonneg (l : List ℚ) (a : ℚ) (ha : 0 ≤ a)
    (hl : ∀ y ∈ l, 0 ≤ y) : 0 ≤ l.foldl min a := by
  induction l generalizing a with
  | nil => simpa using ha
  | cons y ys ih =>
    simp only [List.foldl_cons]
    exact ih (min a y) (le_min ha (hl y (by simp)))
      (fun z hz => hl z (by simp [hz]))

theorem averageMinDistance_self (hav : GpsPoint → GpsPoint → ℚ)
    (hrefl : ∀ p, hav p p = 0) (hnn : ∀ p q, 0 ≤ hav p q)
    (r : List GpsPoint) (hr : r ≠ []) :
    averageMinDistance hav r r = 0 := by
  rw [averageMinDistance, if_neg (by simp [hr])]
  have hz : ∀ p ∈ r, (r.map (fun p2 => hav p p2)).foldl min inftyQ = 0 := by
    intro p hp
    have hle : (r.map (fun p2 => hav p p2)).foldl min inftyQ ≤ 0 := by
      have : (0 : ℚ) = hav p p := (hrefl p).symm
      rw [this]
      exact foldl_min_le _ _ (List.mem_map_of_mem _ hp) _
    have hge : 0 ≤ (r.map (fun p2 => hav p p2)).foldl min inftyQ := by
      refine foldl_min_nonneg _ _ (by norm_num [inftyQ]) ?_
      intro y hy
      obtain ⟨q, _, rfl⟩ := List.mem_map.mp hy
      exact hnn p q
    linarith
  have : (r.map fun p1 => (r.map (fun p2 => hav p1 p2)).foldl min inftyQ).sum
      = 0 := by
    apply List.sum_eq_zero
    intro x hx
    obtain ⟨p, hp, rfl⟩ := List.mem_map.mp hx
    exact hz p hp
  rw [this, zero_div]

theorem distanceRatioRejects_self (d : ℚ) :
    distanceRatioRejects d d = false := by
  by_cases h : d = 0
  · simp [distanceRatioRejects, h]
  · simp only [distanceRatioRejects, h, and_self, if_neg, if_false,
      lt_irrefl, decide_eq_false_iff_not, not_lt]
    rw [div_self h]
    norm_num

theorem determineDirection_self (hav : GpsPoint → GpsPoint → ℚ)
    (hrefl : ∀ p, hav p p = 0) (hnn : ∀ p q, 0 ≤ hav p q)
    (s : RouteSignature) (threshold : ℚ) :
    determineDirectionByEndpoints hav s s threshold = "same" := by
  rw [determineDirectionByEndpoints]
  by_cases hc : hav s.start_point s.end_point < threshold
  · rw [if_pos ⟨hc, hc⟩]
  · rw [if_neg (by tauto)]
    rw [if_neg ?_]
    have h1 := hrefl s.start_point
    have h2 := hrefl s.end_point
    have h3 := hnn s.start_point s.end_point
    have h4 := hnn s.end_point s.start_point
    push_neg
    linarith

/-! ## C4: symmetry of `compare_routes` -/

/-- `MatchResult` with the two activity-id fields exchanged. -/
def swapResult (r : MatchResult) : MatchResult :=
  { r with activity_id_1 := r.activity_id_2, activity_id_2 := r.activity_id_1 }

theorem distanceRatioRejects_symm (d1 d2 : ℚ) :
    distanceRatioRejects d2 d1 = distanceRatioRejects d1 d2 := by
  unfold distanceRatioRejects
  rcases lt_trichotomy d1 d2 with h | h | h
  · simp only [gt_iff_lt, if_pos h, if_neg (asymm h), and_comm]
  · subst h; rfl
  · simp only [gt_iff_lt, if_pos h, if_neg (asymm h), and_comm]

theorem determineDirection_symm (hav : GpsPoint → GpsPoint → ℚ)
    (hsymm : ∀ p q, hav p q = hav q p)
    (sig1 sig2 : RouteSignature) (thr : ℚ) :
    determineDirectionByEndpoints hav sig2 sig1 thr =
      determineDirectionByEndpoints hav sig1 sig2 thr := by
  unfold determineDirectionByEndpoints
  simp only [hsymm sig1.start_point sig2.start_point,
    hsymm sig1.end_point sig2.end_point,
    hsymm sig1.start_point sig2.end_point,
    hsymm sig1.end_point sig2.start_point,
    and_comm]
  rw [add_comm (hav sig2.end_point sig1.start_point)]

/-- C4: for a symmetric distance function (as the haversine is),
`compare_routes` is symmetric: swapping the two signatures yields `none`
exactly when the original call does, and otherwise the same result with
the two activity-id fields exchanged.  The prefilter, the averaged AMD,
the percentage and the direction string are all invariant under the swap. -/
theorem C4_compare_symmetric (hav : GpsPoint → GpsPoint → ℚ)
    (hsymm : ∀ p q, hav p q = hav q p)
    (sig1 sig2 : RouteSignature) (config : MatchConfig) :
    compareRoutes hav sig2 sig1 config =
      (compareRoutes hav sig1 sig2 config).map swapResult := by
  unfold compareRoutes
  rw [distanceRatioRejects_symm]
  by_cases hrej : distanceRatioRejects sig1.total_distance sig2.total_distance
  · simp [hrej]
  · simp only [hrej, if_false, Bool.false_eq_true]
    rw [determineDirection_symm hav hsymm sig1 sig2,
      add_comm (averageMinDistance hav
        (resampleRoute hav sig2.points config.resample_count)
        (resampleRoute hav sig1.points config.resample_count))]
    by_cases hpct : amdToPercentage
        ((averageMinDistance hav
            (resampleRoute hav sig1.points config.resample_count)
            (resampleRoute hav sig2.points config.resample_count) +
          averageMinDistance hav
            (resampleRoute hav sig2.points config.resample_count)
            (resampleRoute hav sig1.points config.resample_count)) / 2)
        config.perfect_threshold config.zero_threshold <
        config.min_match_percentage
    · simp [hpct]
    · simp [hpct, swapResult]

def sigC4a : RouteSignature := mkMeridianSig "a" [uPt 0, uPt 10]

def sigC4b : RouteSignature := mkMeridianSig "b" [uPt 1, uPt 11]

theorem C4_witness :
    (∀ p q, taxiDist p q = taxiDist q p) ∧
      compareRoutes taxiDist sigC4b sigC4a MatchConfig.default =
        (compareRoutes taxiDist sigC4a sigC4b MatchConfig.default).map swapResult := by
  have hs : ∀ p q, taxiDist p q = taxiDist q p := by
    intro p q
    unfold taxiDist
    rw [abs_sub_comm p.latitude, abs_sub_comm p.longitude]
  exact ⟨hs, C4_compare_symmetric taxiDist hs sigC4a sigC4b MatchConfig.default⟩

/-! ## C3: self-comparison of a signature -/

def sigSelfC3 : RouteSignature := mkMeridianSig "s" [uPt 0, uPt 10]

/-- C3 counterexample: with `min_match_percentage = 150` (all other
options default), the self-comparison of a valid two-point signature is
gated out and `compare_routes` returns `None`, so the claim fails for
this configuration. -/
theorem C3_counterexample :
    compareRoutes taxiDist sigSelfC3 sigSelfC3
      { MatchConfig.default with min_match_percentage := 150 } = none := by
  decide!

/-- C3 (amended): for every signature with the `from_points` invariants
(nonempty points, `total_distance` the route distance of its points) and
every configuration with `0 ≤ perfect_threshold`,
`min_match_percentage ≤ 100` and `resample_count ≥ 1`, the
self-comparison succeeds with match percentage exactly 100 (≥ 95),
direction `"same"`, and AMD `0` (≤ `perfect_threshold`). -/
theorem C3_self_compare (hav : GpsPoint → GpsPoint → ℚ)
    (hrefl : ∀ p, hav p p = 0) (hnn : ∀ p q, 0 ≤ hav p q)
    (s : RouteSignature) (config : MatchConfig)
    (hpts : s.points ≠ [])
    (hperfect : 0 ≤ config.perfect_threshold)
    (hmin : config.min_match_percentage ≤ 100)
    (hrc : 1 ≤ config.resample_count) :
    compareRoutes hav s s config =
      some ⟨s.activity_id, s.activity_id, 100, "same", 0⟩ := by
  have hres := resampleRoute_head hav s.points config.resample_count hpts hrc
  have hamd := averageMinDistance_self hav hrefl hnn
    (resampleRoute hav s.points config.resample_count) hres.2
  rw [compareRoutes]
  rw [if_neg (by simp [distanceRatioRejects_self])]
  simp only [hamd]
  have havg : ((0 : ℚ) + 0) / 2 = 0 := by norm_num
  rw [havg]
  have hpct : amdToPercentage 0 config.perfect_threshold
      config.zero_threshold = 100 := by
    rw [amdToPercentage, if_pos hperfect]
  rw [hpct]
  rw [if_neg (by push_neg; linarith)]
  rw [if_pos (by norm_num)]
  rw [determineDirection_self hav hrefl hnn s config.endpoint_threshold]

/-- C3 witness input. -/
theorem C3_witness :
    compareRoutes taxiDist sigSelfC3 sigSelfC3 MatchConfig.default =
      some ⟨"s", "s", 100, "same", 0⟩ :=
  C3_self_compare taxiDist
    (by intro p; simp [taxiDist])
    (by intro p q; unfold taxiDist; positivity)
    sigSelfC3 MatchConfig.default
    (by decide) (by norm_num [MatchConfig.default])
    (by norm_num [MatchConfig.default]) (by norm_num [MatchConfig.default])

/-! ## C7: exactness of resampling -/

theorem resampleWhile_spec (N : Nat) (step : ℚ) (prev curr : GpsPoint)
    (seg acc : ℚ) :
    ∀ (fuel : Nat) (next : ℚ) (res : List GpsPoint),
      res.length ≤ N - 1 →
      N - 1 ≤ fuel + res.length →
      next = step * (res.length : ℚ) →
      (resampleWhile N step prev curr seg acc fuel next res).2.length ≤ N - 1 ∧
      res.length ≤ (resampleWhile N step prev curr seg acc fuel next res).2.length ∧
      (resampleWhile N step prev curr seg acc fuel next res).1 =
        step * ((resampleWhile N step prev curr seg acc fuel next res).2.length : ℚ) ∧
      ((resampleWhile N step prev curr seg acc fuel next res).2.length = N - 1 ∨
        acc + seg < (resampleWhile N step prev curr seg acc fuel next res).1) := by
  intro fuel
  induction fuel with
  | zero =>
    intro next res h1 h2 h3
    simp only [resampleWhile]
    exact ⟨h1, le_refl _, h3, Or.inl (by omega)⟩
  | succ fuel ih =>
    intro next res h1 h2 h3
    simp only [resampleWhile]
    by_cases hg : acc + seg ≥ next ∧ res.length < N - 1
    · rw [if_pos hg]
      have hlen : (res ++ [lerpPoint prev curr ((next - acc) / seg)]).length
          = res.length + 1 := by simp
      obtain ⟨a, b, c, d⟩ := ih (next + step)
        (res ++ [lerpPoint prev curr ((next - acc) / seg)])
        (by rw [hlen]; omega) (by rw [hlen]; omega)
        (by rw [hlen]; push_cast; rw [h3]; ring)
      exact ⟨a, le_trans (by simp) b, c, d⟩
    · rw [if_neg hg]
      push_neg at hg
      by_cases hge : next ≤ acc + seg
      · exact ⟨h1, le_refl _, h3, Or.inl (le_antisymm h1 (hg hge))⟩
      · exact ⟨h1, le_refl _, h3, Or.inr (lt_of_not_le hge)⟩

theorem resampleWalk_spec (hav : GpsPoint → GpsPoint → ℚ) (N : Nat)
    (step : ℚ) :
    ∀ (rest : List GpsPoint) (prev : GpsPoint) (acc next : ℚ)
      (res : List GpsPoint),
      res.length ≤ N - 1 →
      next = step * (res.length : ℚ) →
      (res.length = N - 1 ∨ acc < next) →
      (resampleWalk hav N step rest prev acc next res).2.2.length ≤ N - 1 ∧
      res.length ≤ (resampleWalk hav N step rest prev acc next res).2.2.length ∧
      ((resampleWalk hav N step rest prev acc next res).2.2.length = N - 1 ∨
        (resampleWalk hav N step rest prev acc next res).1 <
          (resampleWalk hav N step rest prev acc next res).2.1) ∧
      (resampleWalk hav N step rest prev acc next res).2.1 =
        step * ((resampleWalk hav N step rest prev acc next res).2.2.length : ℚ) ∧
      (resampleWalk hav N step rest prev acc next res).1 =
        acc + calculateRouteDistance hav (prev :: rest) := by
  intro rest
  induction rest with
  | nil =>
    intro prev acc next res h1 h3 hinv
    simp only [resampleWalk, calculateRouteDistance]
    exact ⟨h1, le_refl _, hinv, h3, by ring⟩
  | cons curr rest ih =>
    intro prev acc next res h1 h3 hinv
    simp only [resampleWalk]
    obtain ⟨w1, w2, w3, w4⟩ := resampleWhile_spec N step prev curr
      (hav prev curr) acc N next res h1 (by omega) h3
    rcases hE : resampleWhile N step prev curr (hav prev curr) acc N next res
      with ⟨next2, res2⟩
    rw [hE] at w1 w2 w3 w4
    simp only at w1 w2 w3 w4
    obtain ⟨a, b, c, d, e⟩ := ih curr (acc + hav prev curr) next2 res2 w1 w3 w4
    refine ⟨a, le_trans w2 b, c, d, ?_⟩
    rw [e]
    simp only [calculateRouteDistance]
    ring

/-- C7 counterexample: a two-point route of total distance zero resampled
to `3` points hits the early-return branch `points.take (min N len)` of
`resample_route`, which performs no padding: only 2 points come back. -/
theorem C7_counterexample :
    (2 ≤ ([⟨0, 0⟩, ⟨0, 0⟩] : List GpsPoint).length ∧ 2 ≤ 3) ∧
    (resampleRoute taxiDist [⟨0, 0⟩, ⟨0, 0⟩] 3).length ≠ 3 := by
  decide!

/-- C7 (amended): if additionally the route's total distance is positive
(ruling out the zero-distance early return exhibited by the
counterexample), `resample_route` returns exactly `N` points, keeping the
original first and last points.  The interior `while` loop maintains
`next_threshold = step * |resampled|` and its exit forces
`|resampled| = N - 1` once the full length is consumed, after which the
final padding appends the original last point. -/
theorem C7_resample_exact (hav : GpsPoint → GpsPoint → ℚ)
    (points : List GpsPoint) (N : Nat)
    (hlen : 2 ≤ points.length) (hN : 2 ≤ N)
    (hpos : 0 < calculateRouteDistance hav points) :
    (resampleRoute hav points N).length = N ∧
    (resampleRoute hav points N).head? = points.head? ∧
    (resampleRoute hav points N).getLast? = points.getLast? := by
  rcases points with _ | ⟨p0, rest⟩
  · simp at hlen
  · simp only [resampleRoute]
    rw [if_neg (by omega)]
    by_cases heq : (p0 :: rest).length = N
    · rw [if_pos heq]
      exact ⟨heq, rfl, rfl⟩
    · rw [if_neg heq, if_neg (ne_of_gt hpos)]
      have hcast : (0 : ℚ) < ((N - 1 : Nat) : ℚ) := by
        have : 1 ≤ N - 1 := by omega
        exact_mod_cast Nat.lt_of_lt_of_le Nat.zero_lt_one (by exact_mod_cast this)
      have hstep : 0 < calculateRouteDistance hav (p0 :: rest) /
          ((N - 1 : Nat) : ℚ) := div_pos hpos hcast
      obtain ⟨w1, w2, w3, w4, w5⟩ := resampleWalk_spec hav N
        (calculateRouteDistance hav (p0 :: rest) / ((N - 1 : Nat) : ℚ))
        rest p0 0
        (calculateRouteDistance hav (p0 :: rest) / ((N - 1 : Nat) : ℚ))
        [p0] (by simp; omega) (by simp) (Or.inr (by simpa using hstep))
      obtain ⟨t, ht⟩ := resampleWalk_append hav N
        (calculateRouteDistance hav (p0 :: rest) / ((N - 1 : Nat) : ℚ))
        rest p0 0
        (calculateRouteDistance hav (p0 :: rest) / ((N - 1 : Nat) : ℚ))
        [p0]
      rcases hW : resampleWalk hav N
          (calculateRouteDistance hav (p0 :: rest) / ((N - 1 : Nat) : ℚ))
          rest p0 0
          (calculateRouteDistance hav (p0 :: rest) / ((N - 1 : Nat) : ℚ))
          [p0] with ⟨accF, nextF, resF⟩
      rw [hW] at w1 w2 w3 w4 w5 ht
      simp only at w1 w2 w3 w4 w5 ht
      dsimp only
      have hfinal : resF.length = N - 1 := by
        rcases w3 with h | h
        · exact h
        · exfalso
          rw [w5, w4] at h
          have hle : ((resF.length : ℚ)) ≤ ((N - 1 : Nat) : ℚ) :=
            Nat.cast_le.mpr w1
          have hmul : calculateRouteDistance hav (p0 :: rest) /
                ((N - 1 : Nat) : ℚ) * ((resF.length : ℚ)) ≤
              calculateRouteDistance hav (p0 :: rest) /
                ((N - 1 : Nat) : ℚ) * ((N - 1 : Nat) : ℚ) :=
            mul_le_mul_of_nonneg_left hle (le_of_lt hstep)
          rw [div_mul_cancel₀ _ (ne_of_gt hcast)] at hmul
          linarith
      rw [if_pos (by omega)]
      refine ⟨by simp [hfinal]; omega, ?_, ?_⟩
      · rw [ht]
        simp
      · rw [List.getLast?_concat]
        have hne : p0 :: rest ≠ [] := by simp
        rw [List.getLastD_eq_getLast?]
        cases hq : (p0 :: rest).getLast? with
        | none => exact absurd (List.getLast?_eq_none_iff.mp hq) hne
        | some q => simp

theorem C7_witness :
    (2 ≤ ([uPt 0, uPt 10] : List GpsPoint).length ∧ (2 : Nat) ≤ 3 ∧
      0 < calculateRouteDistance taxiDist [uPt 0, uPt 10]) ∧
    ((resampleRoute taxiDist [uPt 0, uPt 10] 3).length = 3 ∧
      (resampleRoute taxiDist [uPt 0, uPt 10] 3).head? =
        ([uPt 0, uPt 10] : List GpsPoint).head? ∧
      (resampleRoute taxiDist [uPt 0, uPt 10] 3).getLast? =
        ([uPt 0, uPt 10] : List GpsPoint).getLast?) := by
  have h1 : 2 ≤ ([uPt 0, uPt 10] : List GpsPoint).length := by decide!
  have h3 : 0 < calculateRouteDistance taxiDist [uPt 0, uPt 10] := by decide!
  exact ⟨⟨h1, by omega, h3⟩,
    C7_resample_exact taxiDist [uPt 0, uPt 10] 3 h1 (by omega) h3⟩

/-! ## C9: direction for loop-to-loop matches -/

def sigLoopP : RouteSignature := mkMeridianSig "a" [uPt 0, uPt 10]

def sigLoopQ : RouteSignature := mkMeridianSig "b" [uPt 14, uPt 24]

def cfg9 : MatchConfig := { MatchConfig.default with resample_count := 2 }

/-- C9 counterexample: two signatures that are both loops by the code's
criterion (start-to-end distance below `endpoint_threshold`), whose
comparison succeeds with match percentage `68.1475` — at least
`min_match_percentage` but below `70` — so the `partial` override fires
and the emitted direction is `"partial"`, not `"same"`. -/
theorem C9_counterexample :
    (taxiDist sigLoopP.start_point sigLoopP.end_point < cfg9.endpoint_threshold ∧
     taxiDist sigLoopQ.start_point sigLoopQ.end_point < cfg9.endpoint_threshold) ∧
    compareRoutes taxiDist sigLoopP sigLoopQ cfg9 =
      some ⟨"a", "b", 27259/400, "partial", 200151/2000⟩ ∧
    ("partial" : String) ≠ "same" := by
  decide!

theorem determineDirection_loops (hav : GpsPoint → GpsPoint → ℚ)
    (sig1 sig2 : RouteSignature) (thr : ℚ)
    (h1 : hav sig1.start_point sig1.end_point < thr)
    (h2 : hav sig2.start_point sig2.end_point < thr) :
    determineDirectionByEndpoints hav sig1 sig2 thr = "same" := by
  simp only [determineDirectionByEndpoints]
  rw [if_pos ⟨h1, h2⟩]

/-- C9 (amended): for two loop signatures the emitted direction is
`"same"` provided the match percentage is at least `70`; below that the
`partial` override takes precedence over the loop rule (see the
counterexample). -/
theorem C9_loop_direction (hav : GpsPoint → GpsPoint → ℚ)
    (sig1 sig2 : RouteSignature) (config : MatchConfig) (r : MatchResult)
    (h1 : hav sig1.start_point sig1.end_point < config.endpoint_threshold)
    (h2 : hav sig2.start_point sig2.end_point < config.endpoint_threshold)
    (hr : compareRoutes hav sig1 sig2 config = some r)
    (hpct : 70 ≤ r.match_percentage) :
    r.direction = "same" := by
  simp only [compareRoutes] at hr
  split at hr
  · cases hr
  · split at hr
    · cases hr
    · injection hr with h
      subst h
      dsimp only at hpct ⊢
      rw [if_pos hpct]
      exact determineDirection_loops hav sig1 sig2 config.endpoint_threshold h1 h2

def sigLoop9a : RouteSignature := mkMeridianSig "a" [uPt 0, uPt 1, uPt 0]

def sigLoop9b : RouteSignature := mkMeridianSig "b" [uPt 0, uPt 1, uPt 0]

def resLoop9 : MatchResult := ⟨"a", "b", 100, "same", 0⟩

theorem C9_witness :
    (taxiDist sigLoop9a.start_point sigLoop9a.end_point <
        MatchConfig.default.endpoint_threshold ∧
      taxiDist sigLoop9b.start_point sigLoop9b.end_point <
        MatchConfig.default.endpoint_threshold ∧
      compareRoutes taxiDist sigLoop9a sigLoop9b MatchConfig.default =
        some resLoop9 ∧
      70 ≤ resLoop9.match_percentage) ∧
    resLoop9.direction = "same" := by
  have h1 : taxiDist sigLoop9a.start_point sigLoop9a.end_point <
      MatchConfig.default.endpoint_threshold := by decide!
  have h2 : taxiDist sigLoop9b.start_point sigLoop9b.end_point <
      MatchConfig.default.endpoint_threshold := by decide!
  have hr : compareRoutes taxiDist sigLoop9a sigLoop9b MatchConfig.default =
      some resLoop9 := by decide!
  have hp : (70 : ℚ) ≤ resLoop9.match_percentage := by decide!
  exact ⟨⟨h1, h2, hr, hp⟩,
    C9_loop_direction taxiDist sigLoop9a sigLoop9b MatchConfig.default
      resLoop9 h1 h2 hr hp⟩

/-! ## C10: generation/query grid-coordinate mismatch -/

theorem queryHeatmapCell_none_of_row (fcos : ℚ → ℚ) (h : HeatmapResult)
    (lat lng cs : ℚ) (hne : h.cells.isEmpty = false)
    (hrow : ∀ c ∈ h.cells,
      c.row ≠ Int.floor ((lat - (h.bounds.min_lat + h.bounds.max_lat) / 2) *
        111320 / cs)) :
    queryHeatmapCell fcos h lat lng cs = none := by
  simp only [queryHeatmapCell, hne, Bool.false_eq_true, if_false]
  have hfind : h.cells.find?
      (fun c => c.row =
          Int.floor ((lat - (h.bounds.min_lat + h.bounds.max_lat) / 2) *
            111320 / cs) ∧
        c.col = Int.floor (lng *
          (111320 * fcos ((h.bounds.min_lat + h.bounds.max_lat) / 2)) / cs)) =
      none := by
    rw [List.find?_eq_none]
    intro c hc
    simp only [decide_eq_true_eq]
    intro hand
    exact hrow c hc hand.1
  rw [hfind]

def cfg10 : HeatmapConfig := ⟨100, none⟩

def sigH10 : RouteSignature := mkMeridianSig "h" [uPt 10, uPt 50]

/-- C10: grid generation keys cells by the first ingested point's
latitude (`ref_lat`), while `query_heatmap_cell` recomputes coordinates
from the mean latitude of the result's bounds.  For the two-point
signature `sigH10` the second ingested point lands in cell row `4` at
generation time, but querying the heatmap at exactly that point's
coordinates (with the heatmap's own cell size) targets row `2` and finds
no cell.  The statement is proved for every `fcos` (the cosine stand-in),
since all longitudes involved are `0` and rows do not depend on it. -/
theorem C10_query_generation_mismatch (fcos : ℚ → ℚ) :
    (∃ c ∈ (generateHeatmap fcos [sigH10] [] cfg10).cells,
        c.row = 4 ∧ c.col = 0 ∧ c.visit_count = 1) ∧
    queryHeatmapCell fcos (generateHeatmap fcos [sigH10] [] cfg10)
      (uPt 50).latitude (uPt 50).longitude
      (generateHeatmap fcos [sigH10] [] cfg10).cell_size_meters = none := by
  have hf4 : ⌊((1/200 - 1/1000) * 111320 / 100 : ℚ)⌋ = 4 := by norm_num
  have h1 : HeatmapGrid.addPoint fcos (HeatmapGrid.new 100) (1/1000) 0 "h"
      none none none =
      { cell_size_meters := 100
        ref_lat := 1/1000
        cells := [((0, 0), ⟨1, ["h"], [], [], none, none⟩)]
        min_lat := 1/1000
        max_lat := 1/1000
        min_lng := 0
        max_lng := 0 } := by
    simp only [HeatmapGrid.addPoint, HeatmapGrid.new, toGridCoords,
      gridCellsUpdate, CellBuilder.update]
    norm_num [inftyQ]
  have h2 : HeatmapGrid.addPoint fcos
      { cell_size_meters := 100
        ref_lat := 1/1000
        cells := [((0, 0), ⟨1, ["h"], [], [], none, none⟩)]
        min_lat := 1/1000
        max_lat := 1/1000
        min_lng := 0
        max_lng := 0 } (1/200) 0 "h" none none none =
      { cell_size_meters := 100
        ref_lat := 1/1000
        cells := [((0, 0), ⟨1, ["h"], [], [], none, none⟩),
                  ((4, 0), ⟨1, ["h"], [], [], none, none⟩)]
        min_lat := 1/1000
        max_lat := 1/200
        min_lng := 0
        max_lng := 0 } := by
    simp only [HeatmapGrid.addPoint, toGridCoords]
    norm_num [hf4, gridCellsUpdate, CellBuilder.update, Prod.ext_iff]
  have hgrid : ([sigH10] : List RouteSignature).foldl
      (ingestSignature fcos cfg10 [])
      (HeatmapGrid.new cfg10.cell_size_meters) =
      { cell_size_meters := 100
        ref_lat := 1/1000
        cells := [((0, 0), ⟨1, ["h"], [], [], none, none⟩),
                  ((4, 0), ⟨1, ["h"], [], [], none, none⟩)]
        min_lat := 1/1000
        max_lat := 1/200
        min_lng := 0
        max_lng := 0 } := by
    simp only [List.foldl_cons, List.foldl_nil, ingestSignature, pointClipped,
      sigH10, mkMeridianSig, uPt, cfg10, List.lookup_nil, Option.none_bind,
      if_false, Bool.false_eq_true]
    norm_num
    rw [h1, h2]
    rfl
  have hbuild : HeatmapGrid.build fcos
      { cell_size_meters := 100
        ref_lat := 1/1000
        cells := [((0, 0), ⟨1, ["h"], [], [], none, none⟩),
                  ((4, 0), ⟨1, ["h"], [], [], none, none⟩)]
        min_lat := 1/1000
        max_lat := 1/200
        min_lng := 0
        max_lng := 0 } =
      { cells :=
          [{ row := 0
             col := 0
             center_lat := (cellCenter fcos (1/1000) 100 0 0).1
             center_lng := (cellCenter fcos (1/1000) 100 0 0).2
             density := 1
             visit_count := 1
             route_refs := []
             unique_route_count := 0
             activity_ids := ["h"]
             first_visit := none
             last_visit := none
             is_common_path := false },
           { row := 4
             col := 0
             center_lat := (cellCenter fcos (1/1000) 100 4 0).1
             center_lng := (cellCenter fcos (1/1000) 100 4 0).2
             density := 1
             visit_count := 1
             route_refs := []
             unique_route_count := 0
             activity_ids := ["h"]
             first_visit := none
             last_visit := none
             is_common_path := false }]
        bounds := ⟨1/1000, 1/200, 0, 0⟩
        cell_size_meters := 100
        grid_rows := 5
        grid_cols := 1
        max_density := 1
        total_routes := 0
        total_activities := 1 } := by
    simp only [HeatmapGrid.build]
    norm_num [distinctCount, List.dedup_cons_of_mem, List.dedup_cons_of_not_mem]
    rfl
  rw [generateHeatmap, hgrid, hbuild]
  constructor
  · exact ⟨_, List.mem_cons_of_mem _ (List.mem_singleton_self _), rfl, rfl, rfl⟩
  · refine queryHeatmapCell_none_of_row fcos _ _ _ _ rfl ?_
    intro c hc
    simp only [List.mem_cons, List.not_mem_nil, or_false] at hc
    rcases hc with rfl | rfl
    · norm_num [uPt]
    · norm_num [uPt]

/-! ## C8: heatmap build invariants -/

/-- Visit count of the per-cell association list entries. -/
def kvVisit (kv : (Int × Int) × CellBuilder) : Nat := kv.2.visit_count

theorem update_visit (b : CellBuilder) (aid : String) (rid : Option String)
    (rn : Option String) (ts : Option Int) :
    (CellBuilder.update b aid rid rn ts).visit_count = b.visit_count + 1 := by
  simp only [CellBuilder.update]
  rcases rid with _ | rid <;> rcases ts with _ | ts <;> simp <;> split <;> rfl

theorem gridCellsUpdate_sum (key : Int × Int) (aid : String)
    (rid : Option String) (rn : Option String) (ts : Option Int) :
    ∀ cells : List ((Int × Int) × CellBuilder),
      ((gridCellsUpdate cells key aid rid rn ts).map kvVisit).sum =
        (cells.map kvVisit).sum + 1 := by
  intro cells
  induction cells with
  | nil => simp [gridCellsUpdate, kvVisit, update_visit]
  | cons kv rest ih =>
    by_cases h : kv.1 = key
    · simp [gridCellsUpdate, h, kvVisit, update_visit]
      omega
    · simp [gridCellsUpdate, h, kvVisit] at ih ⊢
      omega

theorem gridCellsUpdate_pos (key : Int × Int) (aid : String)
    (rid : Option String) (rn : Option String) (ts : Option Int) :
    ∀ cells : List ((Int × Int) × CellBuilder),
      (∀ kv ∈ cells, 1 ≤ kvVisit kv) →
      ∀ kv ∈ gridCellsUpdate cells key aid rid rn ts, 1 ≤ kvVisit kv := by
  intro cells
  induction cells with
  | nil =>
    intro _ kv hkv
    simp [gridCellsUpdate] at hkv
    subst hkv
    simp [kvVisit, update_visit]
  | cons kv0 rest ih =>
    intro hall kv hkv
    by_cases h : kv0.1 = key
    · simp only [gridCellsUpdate, if_pos h] at hkv
      rcases List.mem_cons.mp hkv with rfl | hmem
      · simp [kvVisit, update_visit]
      · exact hall kv (List.mem_cons_of_mem _ hmem)
    · simp only [gridCellsUpdate, if_neg h] at hkv
      rcases List.mem_cons.mp hkv with rfl | hmem
      · exact hall kv (List.mem_cons_self _ _)
      · exact ih (fun x hx => hall x (List.mem_cons_of_mem _ hx)) kv hmem

theorem addPoint_sum (fcos : ℚ → ℚ) (g : HeatmapGrid) (lat lng : ℚ)
    (aid : String) (rid : Option String) (rn : Option String)
    (ts : Option Int) :
    ((HeatmapGrid.addPoint fcos g lat lng aid rid rn ts).cells.map kvVisit).sum
      = (g.cells.map kvVisit).sum + 1 := by
  simp only [HeatmapGrid.addPoint]
  split <;> exact gridCellsUpdate_sum _ _ _ _ _ _

theorem addPoint_pos (fcos : ℚ → ℚ) (g : HeatmapGrid) (lat lng : ℚ)
    (aid : String) (rid : Option String) (rn : Option String)
    (ts : Option Int) (h : ∀ kv ∈ g.cells, 1 ≤ kvVisit kv) :
    ∀ kv ∈ (HeatmapGrid.addPoint fcos g lat lng aid rid rn ts).cells,
      1 ≤ kvVisit kv := by
  simp only [HeatmapGrid.addPoint]
  split <;> exact gridCellsUpdate_pos _ _ _ _ _ _ h

/-- Number of points of a signature surviving the clip filter. -/
def keptCount (config : HeatmapConfig) (sig : RouteSignature) : Nat :=
  (sig.points.filter (fun p => ! pointClipped config p)).length

theorem ingest_fold_sum (fcos : ℚ → ℚ) (config : HeatmapConfig)
    (aid : String) (rid : Option String) (rn : Option String)
    (ts : Option Int) :
    ∀ (pts : List GpsPoint) (g : HeatmapGrid),
      (((pts.foldl (fun grid point =>
          if pointClipped config point then grid
          else grid.addPoint fcos point.latitude point.longitude aid rid rn
            ts) g).cells.map kvVisit).sum) =
        (g.cells.map kvVisit).sum +
          (pts.filter (fun p => ! pointClipped config p)).length := by
  intro pts
  induction pts with
  | nil => intro g; simp
  | cons p rest ih =>
    intro g
    simp only [List.foldl_cons, List.filter_cons]
    cases hcb : pointClipped config p with
    | true => simp [hcb, ih]
    | false =>
      simp [hcb, ih, addPoint_sum]
      omega

theorem ingest_sum (fcos : ℚ → ℚ) (config : HeatmapConfig)
    (ad : List (String × ActivityHeatmapData)) (g : HeatmapGrid)
    (sig : RouteSignature) :
    ((ingestSignature fcos config ad g sig).cells.map kvVisit).sum =
      (g.cells.map kvVisit).sum + keptCount config sig := by
  simp only [ingestSignature, keptCount]
  exact ingest_fold_sum fcos config _ _ _ _ sig.points g

theorem ingest_pos (fcos : ℚ → ℚ) (config : HeatmapConfig)
    (ad : List (String × ActivityHeatmapData)) (g : HeatmapGrid)
    (sig : RouteSignature) (h : ∀ kv ∈ g.cells, 1 ≤ kvVisit kv) :
    ∀ kv ∈ (ingestSignature fcos config ad g sig).cells, 1 ≤ kvVisit kv := by
  simp only [ingestSignature]
  generalize sig.points = pts
  induction pts generalizing g with
  | nil => simpa using h
  | cons p rest ih =>
    simp only [List.foldl_cons]
    by_cases hc : pointClipped config p
    · rw [if_pos hc]
      exact ih g h
    · rw [if_neg hc]
      exact ih _ (addPoint_pos _ _ _ _ _ _ _ _ h)

theorem generate_fold_sum (fcos : ℚ → ℚ) (config : HeatmapConfig)
    (ad : List (String × ActivityHeatmapData)) :
    ∀ (sigs : List RouteSignature) (g : HeatmapGrid),
      (((sigs.foldl (ingestSignature fcos config ad) g).cells.map
        kvVisit).sum) =
        (g.cells.map kvVisit).sum + (sigs.map (keptCount config)).sum := by
  intro sigs
  induction sigs with
  | nil => intro g; simp
  | cons s rest ih =>
    intro g
    simp only [List.foldl_cons, List.map_cons, List.sum_cons]
    rw [ih, ingest_sum]
    omega

theorem generate_fold_pos (fcos : ℚ → ℚ) (config : HeatmapConfig)
    (ad : List (String × ActivityHeatmapData)) :
    ∀ (sigs : List RouteSignature) (g : HeatmapGrid),
      (∀ kv ∈ g.cells, 1 ≤ kvVisit kv) →
      ∀ kv ∈ (sigs.foldl (ingestSignature fcos config ad) g).cells,
        1 ≤ kvVisit kv := by
  intro sigs
  induction sigs with
  | nil => intro g h; simpa using h
  | cons s rest ih =>
    intro g h
    simp only [List.foldl_cons]
    exact ih _ (ingest_pos _ _ _ _ _ h)

theorem le_foldl_max (l : List Nat) : ∀ a, a ≤ l.foldl max a := by
  induction l with
  | nil => intro a; simp
  | cons y ys ih =>
    intro a
    simp only [List.foldl_cons]
    exact le_trans (le_max_left a y) (ih (max a y))

theorem mem_le_foldl_max (l : List Nat) (x : Nat) (hx : x ∈ l) :
    ∀ a, x ≤ l.foldl max a := by
  induction l with
  | nil => cases hx
  | cons y ys ih =>
    intro a
    rcases List.mem_cons.mp hx with rfl | h
    · simp only [List.foldl_cons]
      exact le_trans (le_max_right a x) (le_foldl_max ys (max a x))
    · exact ih h _

theorem foldl_max_mem (l : List Nat) : ∀ a, l.foldl max a = a ∨ l.foldl max a ∈ l := by
  induction l with
  | nil => intro a; left; rfl
  | cons y ys ih =>
    intro a
    rcases ih (max a y) with h | h
    · rcases max_choice a y with hm | hm
      · left
        simp only [List.foldl_cons]
        rw [h, hm]
      · right
        simp only [List.foldl_cons]
        rw [h, hm]
        exact List.mem_cons_self _ _
    · right
      exact List.mem_cons_of_mem _ h

theorem build_invariants (fcos : ℚ → ℚ) (grid : HeatmapGrid)
    (hne : grid.cells.isEmpty = false)
    (hpos : ∀ kv ∈ grid.cells, 1 ≤ kvVisit kv) :
    ((HeatmapGrid.build fcos grid).cells.map (fun c => c.visit_count)).sum =
      (grid.cells.map kvVisit).sum ∧
    (∀ c ∈ (HeatmapGrid.build fcos grid).cells,
      c.density ≤ 1 ∧ c.is_common_path = decide (2 ≤ c.unique_route_count)) ∧
    ∃ c ∈ (HeatmapGrid.build fcos grid).cells, c.density = 1 := by
  simp only [HeatmapGrid.build, hne, Bool.false_eq_true, if_false]
  have hMub : ∀ kv ∈ grid.cells, kv.2.visit_count ≤
      ((grid.cells.map fun kv => kv.2.visit_count).max?).getD 1 := by
    rcases hcl : grid.cells with _ | ⟨c0, rest⟩
    · intro kv hkv; cases hkv
    · intro kv hkv
      simp only [List.map_cons, List.max?]
      rcases List.mem_cons.mp hkv with rfl | hmem
      · simpa using le_foldl_max _ _
      · simpa using mem_le_foldl_max
          (rest.map fun kv => kv.2.visit_count) kv.2.visit_count
          (List.mem_map_of_mem _ hmem) c0.2.visit_count
  have hMmem : ∃ kv ∈ grid.cells, kv.2.visit_count =
      ((grid.cells.map fun kv => kv.2.visit_count).max?).getD 1 := by
    rcases hcl : grid.cells with _ | ⟨c0, rest⟩
    · rw [hcl] at hne; simp at hne
    · simp only [List.map_cons, List.max?]
      rcases foldl_max_mem (rest.map fun kv => kv.2.visit_count) c0.2.visit_count
        with h | h
      · exact ⟨c0, List.mem_cons_self _ _, by simpa using h.symm⟩
      · obtain ⟨kv, hkv, hv⟩ := List.mem_map.mp h
        exact ⟨kv, List.mem_cons_of_mem _ hkv, by simpa using hv⟩
  have hM1 : 1 ≤ ((grid.cells.map fun kv => kv.2.visit_count).max?).getD 1 := by
    obtain ⟨kv, hkv, hv⟩ := hMmem
    rw [← hv]
    exact hpos kv hkv
  have hMQpos : (0 : ℚ) <
      ((((grid.cells.map fun kv => kv.2.visit_count).max?).getD 1 : Nat) : ℚ) := by
    exact_mod_cast Nat.lt_of_lt_of_le Nat.zero_lt_one hM1
  refine ⟨?_, ?_, ?_⟩
  · rw [List.map_map]
    rfl
  · intro c hc
    obtain ⟨kv, hkv, rfl⟩ := List.mem_map.mp hc
    refine ⟨?_, rfl⟩
    simp only
    rw [div_le_one hMQpos]
    exact_mod_cast hMub kv hkv
  · obtain ⟨kv, hkv, hv⟩ := hMmem
    refine ⟨_, List.mem_map_of_mem _ hkv, ?_⟩
    simp only
    rw [hv]
    exact div_self (ne_of_gt hMQpos)

/-- C8: for a heatmap built from at least one ingested (non-clipped)
point: the total visit count over cells equals the number of ingested
points after clip filtering, every cell's normalized density is at most
`1` with `is_common_path` set exactly when the unique route count is at
least `2`, and some cell attains density `1` (so the maximum normalized
density is `1`). -/
theorem C8_heatmap_invariants (fcos : ℚ → ℚ) (sigs : List RouteSignature)
    (ad : List (String × ActivityHeatmapData)) (config : HeatmapConfig)
    (hing : 0 < (sigs.map (keptCount config)).sum) :
    ((generateHeatmap fcos sigs ad config).cells.map
        (fun c => c.visit_count)).sum = (sigs.map (keptCount config)).sum ∧
    (∀ c ∈ (generateHeatmap fcos sigs ad config).cells,
      c.density ≤ 1 ∧ c.is_common_path = decide (2 ≤ c.unique_route_count)) ∧
    ∃ c ∈ (generateHeatmap fcos sigs ad config).cells, c.density = 1 := by
  simp only [generateHeatmap]
  set G := sigs.foldl (ingestSignature fcos config ad)
    (HeatmapGrid.new config.cell_size_meters) with hG
  have hsum' : (G.cells.map kvVisit).sum = (sigs.map (keptCount config)).sum := by
    rw [hG]
    simpa [HeatmapGrid.new] using
      generate_fold_sum fcos config ad sigs
        (HeatmapGrid.new config.cell_size_meters)
  have hpos : ∀ kv ∈ G.cells, 1 ≤ kvVisit kv := by
    rw [hG]
    exact generate_fold_pos fcos config ad sigs _ (by simp [HeatmapGrid.new])
  have hne : G.cells.isEmpty = false := by
    cases hcl : G.cells with
    | nil =>
      exfalso
      rw [hcl] at hsum'
      simp at hsum'
      omega
    | cons a l => rfl
  obtain ⟨hA, hB, hC⟩ := build_invariants fcos G hne hpos
  exact ⟨by rw [hA, hsum'], hB, hC⟩

def cfg8 : HeatmapConfig := ⟨100, none⟩

def sigH8 : RouteSignature := mkMeridianSig "a" [uPt 0]

theorem C8_witness :
    (0 < (([sigH8] : List RouteSignature).map (keptCount cfg8)).sum) ∧
    (((generateHeatmap cosOne [sigH8] [] cfg8).cells.map
        (fun c => c.visit_count)).sum =
      (([sigH8] : List RouteSignature).map (keptCount cfg8)).sum ∧
    (∀ c ∈ (generateHeatmap cosOne [sigH8] [] cfg8).cells,
      c.density ≤ 1 ∧ c.is_common_path = decide (2 ≤ c.unique_route_count)) ∧
    ∃ c ∈ (generateHeatmap cosOne [sigH8] [] cfg8).cells, c.density = 1) := by
  have h : 0 < (([sigH8] : List RouteSignature).map (keptCount cfg8)).sum := by
    decide!
  exact ⟨h, C8_heatmap_invariants cosOne [sigH8] [] cfg8 h⟩

end Velox
